import Mathlib

/-!
Verification development for the singapore-postcode-geocoding repository.

The development shallowly embeds the postcode validation pipeline
(`data_validation/singapore_postcode_validation.py`, called variant A below,
and `pipelines/data_validation/nodes.py`, called variant B below), the two
column-identification modules
(`pipelines/post_code_identification/nodes/auto_identification.py`, variant 1,
and `pipelines/postcode_identification/nodes/auto_identification.py`,
variant 2), and the geocoding merge of `app/services/geocoding.py` together
with the statistics of `app/components/data_table.py`.

Modelling conventions:
* a cell value is `Value` (missing, numeric, boolean or text); pandas floats
  are modelled by exact rationals;
* `pd.to_numeric(errors="coerce")` is `to_numeric`, with a decimal parser
  covering sign, integer part and fractional part (the inputs appearing in
  the repository's examples);
* a raising pandas operation is an `Except Unit` result
  (`.astype("Int64")` raises on a float with a non-zero fractional part);
* `df.sample(n, random_state=rs)` is modelled abstractly: the drawn rows are
  a function of the seed when `rs` is given and of an ambient entropy value
  (the global RNG state) when it is `None`;
* the regex extraction step is abstracted as a per-cell function parameter
  `ext`, since the claims under study do not depend on the pattern semantics.
-/

deriving instance DecidableEq for Except

namespace SPG

/-- Cell value of a table: missing (NaN), numeric, boolean or text. -/
inductive Value where
  | na : Value
  | num : ℚ → Value
  | bool : Bool → Value
  | str : String → Value
deriving DecidableEq, Repr

/-- Model of `pd.isna` on a cell. -/
def Value.isna : Value → Bool
  | .na => true
  | _ => false

/-- Digit characters of a string, as values. -/
def charDigit? (c : Char) : Option ℕ :=
  if c.isDigit then some (c.toNat - 48) else none

/-- Parse an unsigned digit run into a natural number together with its length. -/
def parseDigits : List Char → Option (ℕ × ℕ)
  | [] => none
  | cs => parseDigitsAux cs 0 0
where
  parseDigitsAux : List Char → ℕ → ℕ → Option (ℕ × ℕ)
    | [], acc, len => some (acc, len)
    | c :: cs, acc, len =>
      match charDigit? c with
      | some d => parseDigitsAux cs (acc * 10 + d) (len + 1)
      | none => none

/-- Split a character list at the first occurrence of `.`. -/
def splitAtDot (cs : List Char) : List Char × Option (List Char) :=
  match cs with
  | [] => ([], none)
  | c :: rest =>
    if c = '.' then ([], some rest)
    else
      let (pre, post) := splitAtDot rest
      (c :: pre, post)

/-- Parse a decimal literal (optional sign, digits, optional fractional part)
into a rational.  This is the model of the string-to-float conversion
performed by `pd.to_numeric(errors="coerce")`; strings outside this shape
coerce to NaN (`none`). -/
def parseDecimal (s : String) : Option ℚ :=
  let cs := (((s.toList.dropWhile Char.isWhitespace).reverse.dropWhile
    Char.isWhitespace).reverse)
  let (sign, body) :=
    match cs with
    | '-' :: rest => (true, rest)
    | '+' :: rest => (false, rest)
    | _ => (false, cs)
  let (intPart, fracPart) := splitAtDot body
  let intVal : Option (ℕ × ℕ) := if intPart = [] then some (0, 0) else parseDigits intPart
  match intVal, fracPart with
  | none, _ => none
  | some (i, ilen), none =>
    if ilen = 0 then none
    else some (if sign then -(mkRat i 1) else mkRat i 1)
  | some (i, ilen), some fp =>
    let fracVal : Option (ℕ × ℕ) := if fp = [] then some (0, 0) else parseDigits fp
    match fracVal with
    | none => none
    | some (f, flen) =>
      if ilen = 0 ∧ flen = 0 then none
      else
        let mag : ℚ := mkRat ((i : ℤ) * ((10 : ℤ) ^ flen) + (f : ℤ)) (10 ^ flen)
        some (if sign then -mag else mag)

/-- Model of `pd.to_numeric(errors="coerce")` on one cell. -/
def to_numeric : Value → Option ℚ
  | .na => none
  | .num q => some q
  | .bool b => some (if b then 1 else 0)
  | .str s => parseDecimal s

/-- Decimal digit character for a value below ten. -/
def digitChar (n : ℕ) : Char := Char.ofNat (48 + n)

/-- Fuel-based digit rendering; the fuel strictly bounds the value, so the
recursion is structural and kernel-evaluable. -/
def natDigitsAux : ℕ → ℕ → List Char
  | 0, _ => []
  | fuel + 1, n =>
    if n < 10 then [digitChar n]
    else natDigitsAux fuel (n / 10) ++ [digitChar (n % 10)]

/-- Decimal digit characters of a natural number (most significant first),
the model of Python's `str` on a non-negative integer. -/
def natDigits (n : ℕ) : List Char :=
  natDigitsAux (n + 1) n

/-- Model of Python's `str(int)` followed by `str.zfill(6)`: render the
integer in decimal and pad on the left with `0` to total width six, a sign
staying in front of the padding. -/
def zfill6 (i : ℤ) : String :=
  let ds := natDigits i.natAbs
  if i < 0 then
    ⟨'-' :: (List.replicate (5 - ds.length) '0' ++ ds)⟩
  else
    ⟨List.replicate (6 - ds.length) '0' ++ ds⟩

/-- Closed enumeration of row-level failure reasons. -/
inductive Reason where
  | NOT_NUMERIC
  | NO_INPUT_PROVIDED
  | NOT_INTEGER
  | OUT_OF_RANGE
  | NOT_IN_MASTER_DATASET
deriving DecidableEq, Repr

/-- Validation record of one row: the original input cell, the working value
of the `FORMATTED_POSTCODE` column (numeric before the formatting stage, a
string after it), the `CORRECT_INPUT_POSTCODE` flag and the
`INCORRECT_INPUT_POSTCODE_REASON` cell. -/
structure VRow where
  input : Value
  formatted : Value
  flag : Bool
  reason : Option Reason
deriving DecidableEq, Repr

/-- Option-to-Value embedding for a numeric pandas column. -/
def numOfOption : Option ℚ → Value
  | none => .na
  | some q => .num q

/-- Row-level content of `parse_numeric_postcodes` (identical in variant A,
`singapore_postcode_validation.py`, and variant B,
`pipelines/data_validation/nodes.py`): coerce to numeric, mark non-numeric
non-null inputs `NOT_NUMERIC`, then mark null inputs `NO_INPUT_PROVIDED` as
a final override. -/
def parseNumericRow (v : Value) : VRow :=
  let numeric := to_numeric v
  let r0 : VRow := ⟨v, numOfOption numeric, true, none⟩
  let nonNumericMask := numeric.isNone ∧ v.isna = false
  let r1 : VRow :=
    if nonNumericMask then { r0 with reason := some .NOT_NUMERIC, flag := false } else r0
  let nullInputMask := v.isna = true
  if nullInputMask then { r1 with reason := some .NO_INPUT_PROVIDED, flag := false } else r1

/-- Row-level content of `check_is_integer` (variant A only): a non-null
numeric working value with non-zero fractional part gets `NOT_INTEGER`, the
flag drops and the working value is cleared. -/
def checkIsIntegerRow (r : VRow) : VRow :=
  let nonIntegerMask : Bool :=
    match r.formatted with
    | .num q => decide (¬ q.den = 1)
    | _ => false
  if nonIntegerMask then
    { r with reason := some .NOT_INTEGER, flag := false, formatted := .na }
  else r

/-- Row-level mask of `check_postcode_range`: non-null working value outside
the inclusive `[lo, hi]` range. -/
def outOfRangeMask (lo hi : ℚ) (r : VRow) : Prop :=
  match r.formatted with
  | .num q => ¬ (lo ≤ q ∧ q ≤ hi)
  | _ => False

instance (lo hi : ℚ) (r : VRow) : Decidable (outOfRangeMask lo hi r) := by
  unfold outOfRangeMask
  cases r.formatted <;> infer_instance

/-- Row-level content of `check_postcode_range` in variant A
(`singapore_postcode_validation.py`, lines 297-319): out-of-range values get
`OUT_OF_RANGE`, the flag drops and the working value is cleared. -/
def checkPostcodeRangeRowA (lo hi : ℚ) (r : VRow) : VRow :=
  if outOfRangeMask lo hi r then
    { r with reason := some .OUT_OF_RANGE, flag := false, formatted := .na }
  else r

/-- Row-level content of `check_postcode_range` in variant B
(`pipelines/data_validation/nodes.py`, lines 67-102): same marking, but the
working value is NOT cleared. -/
def checkPostcodeRangeRowB (lo hi : ℚ) (r : VRow) : VRow :=
  if outOfRangeMask lo hi r then
    { r with reason := some .OUT_OF_RANGE, flag := false }
  else r

/-- Model of `.astype("Int64")` on one cell of the working column: missing
propagates, an integral numeric converts, and a numeric with non-zero
fractional part raises (`cannot safely cast non-equivalent float64`). -/
def astypeInt64Cell (v : Value) : Except Unit (Option ℤ) :=
  match v with
  | .na => .ok none
  | .num q => if q.den = 1 then .ok (some q.num) else .error ()
  | _ => .error ()

/-- Row-level content of `format_valid_postcodes` (identical in both
variants): cast the working column to `Int64` (this raises on fractional
values), render as a string, left-pad with zeros to width 6, and keep the
result only where the flag is true. -/
def formatValidRow (r : VRow) : Except Unit VRow :=
  match astypeInt64Cell r.formatted with
  | .error e => .error e
  | .ok i =>
    let rendered : Value :=
      match i with
      | none => .na
      | some z => .str (zfill6 z)
    .ok { r with formatted := if r.flag then rendered else .na }

/-- Row-level content of `check_in_master_dataset` (identical in both
variants): a flagged row whose formatted value is not a member of the master
postcode list gets `NOT_IN_MASTER_DATASET` and its flag drops; the formatted
value is preserved. -/
def checkInMasterRow (master : List String) (r : VRow) : VRow :=
  if (!(match r.formatted with
        | Value.str s => decide (s ∈ master)
        | _ => false) && r.flag) then
    { r with reason := some .NOT_IN_MASTER_DATASET, flag := false }
  else r

/-- Except-valued map over a list, failing if any element fails; the model
of a raising column-wise pandas operation. -/
def mapE (f : α → Except Unit β) : List α → Except Unit (List β)
  | [] => .ok []
  | a :: l =>
    match f a with
    | .error e => .error e
    | .ok b =>
      match mapE f l with
      | .error e => .error e
      | .ok bs => .ok (b :: bs)

namespace ValidationA

/-- Column-level `parse_numeric_postcodes` of variant A. -/
def parse_numeric_postcodes (vals : List Value) : List VRow :=
  vals.map parseNumericRow

/-- Column-level `check_is_integer` of variant A. -/
def check_is_integer (rows : List VRow) : List VRow :=
  rows.map checkIsIntegerRow

/-- Column-level `check_postcode_range` of variant A. -/
def check_postcode_range (lo hi : ℚ) (rows : List VRow) : List VRow :=
  rows.map (checkPostcodeRangeRowA lo hi)

/-- Column-level `format_valid_postcodes` of variant A. -/
def format_valid_postcodes (rows : List VRow) : Except Unit (List VRow) :=
  mapE formatValidRow rows

/-- Column-level `check_in_master_dataset` of variant A. -/
def check_in_master_dataset (master : List String) (rows : List VRow) : List VRow :=
  rows.map (checkInMasterRow master)

/-- Result of the variant-A pipeline `validate_and_format_postcodes` after
its first `k` stages (1 parse, 2 integer check, 3 range check, 4 format,
5 master-dataset check when a master is supplied). -/
def validate_upTo (k : ℕ) (vals : List Value) (lo hi : ℚ)
    (master : Option (List String)) : Except Unit (List VRow) :=
  let r1 := parse_numeric_postcodes vals
  if k ≤ 1 then .ok r1 else
  let r2 := check_is_integer r1
  if k ≤ 2 then .ok r2 else
  let r3 := check_postcode_range lo hi r2
  if k ≤ 3 then .ok r3 else
  match format_valid_postcodes r3 with
  | .error e => .error e
  | .ok r4 =>
    if k ≤ 4 then .ok r4 else
    match master with
    | none => .ok r4
    | some m => .ok (check_in_master_dataset m r4)

/-- Full variant-A `validate_and_format_postcodes`
(`singapore_postcode_validation.py`, lines 487-590, default keep/drop
configuration). -/
def validate_and_format_postcodes (vals : List Value) (lo hi : ℚ)
    (master : Option (List String)) : Except Unit (List VRow) :=
  validate_upTo 5 vals lo hi master

end ValidationA

namespace ValidationB

/-- Column-level `check_postcode_range` of variant B (does not clear the
working value). -/
def check_postcode_range (lo hi : ℚ) (rows : List VRow) : List VRow :=
  rows.map (checkPostcodeRangeRowB lo hi)

/-- Full variant-B `validate_and_format_postcodes`
(`pipelines/data_validation/nodes.py`, lines 170-217, default keep/drop
configuration).  Variant B has no integer-check stage. -/
def validate_and_format_postcodes (vals : List Value) (lo hi : ℚ)
    (master : Option (List String)) : Except Unit (List VRow) :=
  let r1 := ValidationA.parse_numeric_postcodes vals
  let r2 := check_postcode_range lo hi r1
  match ValidationA.format_valid_postcodes r2 with
  | .error e => .error e
  | .ok r3 =>
    match master with
    | none => .ok r3
    | some m => .ok (ValidationA.check_in_master_dataset m r3)

end ValidationB

/-! ### Column identification -/

/-- Identification method: validate the column directly, or extract a
postcode-shaped substring first. -/
inductive MType where
  | DIRECT
  | INDIRECT
deriving DecidableEq, Repr

/-- Row of the ranked identification results (`FIELD`/`COLUMN`,
`SUCCESS_RATE`, `EXTRACT_PATTERN`/`REGEX_PATTERN`, `TYPE`/`METHOD`).  A
`none` rate models a NaN mean (variant 2 on an empty sample). -/
structure Candidate where
  field : String
  rate : Option ℚ
  pattern : Option String
  method : MType
deriving DecidableEq, Repr

/-- Sort rank of the method column: `"DIRECT" < "INDIRECT"` as strings. -/
def mtypeRank : MType → ℕ
  | .DIRECT => 0
  | .INDIRECT => 1

/-- NaN indicator of a success rate; pandas sorts NaN keys last. -/
def rateNaFlag : Option ℚ → ℕ
  | none => 1
  | some _ => 0

/-- Numeric content of a success rate (0 for NaN, only compared on equal
NaN-flags). -/
def rateVal : Option ℚ → ℚ
  | none => 0
  | some q => q

/-- Lexicographic order on sort-key triples. -/
def lex3LE (x y : ℕ × ℚ × ℕ) : Prop :=
  x.1 < y.1 ∨ (x.1 = y.1 ∧ (x.2.1 < y.2.1 ∨ (x.2.1 = y.2.1 ∧ x.2.2 ≤ y.2.2)))

instance (x y : ℕ × ℚ × ℕ) : Decidable (lex3LE x y) := by
  unfold lex3LE
  infer_instance

/-- Sort key of `sort_values(["SUCCESS_RATE", "TYPE"], ascending=[False,
True])`: NaN rates last, then rate descending (negated value ascending),
then method ascending. -/
def candKey (c : Candidate) : ℕ × ℚ × ℕ :=
  (rateNaFlag c.rate, -(rateVal c.rate), mtypeRank c.method)

/-- Comparison used by the ranked-results sort. -/
def candLE (a b : Candidate) : Prop := lex3LE (candKey a) (candKey b)

instance : DecidableRel candLE := fun _a _b => by
  unfold candLE
  infer_instance

theorem lex3LE_total (x y : ℕ × ℚ × ℕ) : lex3LE x y ∨ lex3LE y x := by
  unfold lex3LE
  rcases lt_trichotomy x.1 y.1 with h1 | h1 | h1
  · exact Or.inl (Or.inl h1)
  · rcases lt_trichotomy x.2.1 y.2.1 with h2 | h2 | h2
    · exact Or.inl (Or.inr ⟨h1, Or.inl h2⟩)
    · rcases le_total x.2.2 y.2.2 with h3 | h3
      · exact Or.inl (Or.inr ⟨h1, Or.inr ⟨h2, h3⟩⟩)
      · exact Or.inr (Or.inr ⟨h1.symm, Or.inr ⟨h2.symm, h3⟩⟩)
    · exact Or.inr (Or.inr ⟨h1.symm, Or.inl h2⟩)
  · exact Or.inr (Or.inl h1)

theorem lex3LE_trans {x y z : ℕ × ℚ × ℕ} (hxy : lex3LE x y) (hyz : lex3LE y z) :
    lex3LE x z := by
  unfold lex3LE at *
  rcases hxy with h1 | ⟨h1, h2⟩
  · rcases hyz with g1 | ⟨g1, _⟩
    · exact Or.inl (h1.trans g1)
    · exact Or.inl (g1 ▸ h1)
  · rcases hyz with g1 | ⟨g1, g2⟩
    · exact Or.inl (h1 ▸ g1)
    · refine Or.inr ⟨h1.trans g1, ?_⟩
      rcases h2 with h2 | ⟨h2, h3⟩
      · rcases g2 with g2 | ⟨g2, _⟩
        · exact Or.inl (h2.trans g2)
        · exact Or.inl (g2 ▸ h2)
      · rcases g2 with g2 | ⟨g2, g3⟩
        · exact Or.inl (h2 ▸ g2)
        · exact Or.inr ⟨h2.trans g2, h3.trans g3⟩

instance : IsTotal Candidate candLE := ⟨fun _ _ => lex3LE_total _ _⟩

instance : IsTrans Candidate candLE := ⟨fun _ _ _ => lex3LE_trans⟩

/-- Model of the ranked-results sort
(`sort_values(["SUCCESS_RATE", "TYPE"], ascending=[False, True])`). -/
def sortCandidates (l : List Candidate) : List Candidate :=
  List.insertionSort candLE l

/-! ### Tables and sampling -/

/-- Table: named columns of cell values, rows aligned positionally. -/
abbrev Table := List (String × List Value)

/-- Row count of a table. -/
def nrows : Table → ℕ
  | [] => 0
  | c :: _ => c.2.length

/-- Column names of a table. -/
def columnNames (t : Table) : List String := t.map (·.1)

/-- Column lookup. -/
def getCol (t : Table) (name : String) : Option (List Value) :=
  (t.find? (fun c => c.1 == name)).map (·.2)

/-- Column lookup, raising (KeyError) when absent. -/
def getColE (t : Table) (name : String) : Except Unit (List Value) :=
  match getCol t name with
  | none => .error ()
  | some vs => .ok vs

/-- Deterministic pseudo-permutation-and-truncation standing for the row
choice of `df.sample(n, random_state=s)`: the concrete shuffle of numpy is
opaque, but it is a function of the seed, keeps `min n rows` rows, and
distinct seeds may select different rows. -/
def permuteTake (s n : ℕ) (rows : List α) : List α :=
  (rows.rotate s).take n

/-- Apply the sampled-row choice to every column of a table. -/
def sampleTable (s n : ℕ) (t : Table) : Table :=
  t.map (fun c => (c.1, permuteTake s n c.2))

/-- Seed actually used by `df.sample(..., random_state=rs)`: the given seed,
or the ambient global-RNG state when `rs` is `None`. -/
def drawSeed (rs : Option ℕ) (entropy : ℕ) : ℕ := rs.getD entropy

/-- Replace a column if present (pandas `assign` semantics), else append. -/
def setCol (t : Table) (name : String) (vs : List Value) : Table :=
  if t.any (fun c => c.1 == name) then
    t.map (fun c => if c.1 == name then (name, vs) else c)
  else t ++ [(name, vs)]

/-- Rendering of a reason cell in a derived column. -/
def reasonCell : Option Reason → Value
  | none => .na
  | some .NOT_NUMERIC => .str "NOT_NUMERIC"
  | some .NO_INPUT_PROVIDED => .str "NO_INPUT_PROVIDED"
  | some .NOT_INTEGER => .str "NOT_INTEGER"
  | some .OUT_OF_RANGE => .str "OUT_OF_RANGE"
  | some .NOT_IN_MASTER_DATASET => .str "NOT_IN_MASTER_DATASET"

/-- Attach the three derived validation columns to a table, in the assign
order of `parse_numeric_postcodes` (formatted, reason, flag). -/
def applyValidationCols (t : Table) (rows : List VRow) : Table :=
  setCol
    (setCol
      (setCol t "FORMATTED_POSTCODE" (rows.map (·.formatted)))
      "INCORRECT_INPUT_POSTCODE_REASON" (rows.map (fun r => reasonCell r.reason)))
    "CORRECT_INPUT_POSTCODE" (rows.map (fun r => .bool r.flag))

namespace AutoIdent1

/-- Configuration of the functional identifier
(`post_code_identification/nodes/auto_identification.py`,
`AUTO_IDENTIFY_CONFIG`). -/
structure AutoIdentifyConfig where
  columns : Option (List String)
  sample_size : Option ℕ
  success_threshold : ℚ
  regex_pattern : Option String
deriving DecidableEq, Repr

/-- Fixed sampling seed of the functional identifier (line 43). -/
def SEED : ℕ := 42

/-- Fraction of validated rows with a true flag; `0.0` on an empty frame. -/
def calculate_success_rate (rows : List VRow) : ℚ :=
  if rows.isEmpty then 0
  else mkRat ((rows.filter (·.flag)).length : ℤ) rows.length

/-- Success rate of validating a column directly. -/
def calculate_direct_match_success (vals : List Value) (lo hi : ℚ)
    (master : Option (List String)) : Except Unit ℚ :=
  match ValidationB.validate_and_format_postcodes vals lo hi master with
  | .error e => .error e
  | .ok validated => .ok (calculate_success_rate validated)

/-- Success rate of validating the extraction of a column. -/
def calculate_indirect_match_success (ext : Value → Value) (vals : List Value)
    (lo hi : ℚ) (master : Option (List String)) : Except Unit ℚ :=
  match ValidationB.validate_and_format_postcodes (vals.map ext) lo hi master with
  | .error e => .error e
  | .ok validated => .ok (calculate_success_rate validated)

/-- Model of `calculate_all_match_success` (lines 148-211): draw the seeded
sample, score every candidate column by both methods, and return the ranked
results. -/
def calculate_all_match_success (entropy : ℕ) (ext : Value → Value)
    (cfg : AutoIdentifyConfig) (t : Table) (lo hi : ℚ)
    (master : Option (List String)) : Except Unit (List Candidate) :=
  let ssize : ℕ :=
    match cfg.sample_size with
    | none => 100
    | some 0 => 100
    | some (k + 1) => k + 1
  let cols : List String :=
    match cfg.columns with
    | none => columnNames t
    | some [] => columnNames t
    | some cs => cs
  let sample := sampleTable (drawSeed (some SEED) entropy) (min ssize (nrows t)) t
  match mapE (fun c =>
      match getColE sample c with
      | .error e => .error e
      | .ok vals => calculate_direct_match_success vals lo hi master) cols with
  | .error e => .error e
  | .ok direct =>
    match mapE (fun c =>
        match getColE sample c with
        | .error e => .error e
        | .ok vals => calculate_indirect_match_success ext vals lo hi master) cols with
    | .error e => .error e
    | .ok indirect =>
      let dCands := (cols.zip direct).map
        (fun p => ({ field := p.1, rate := some p.2, pattern := none,
                     method := .DIRECT } : Candidate))
      let iCands := (cols.zip indirect).map
        (fun p => ({ field := p.1, rate := some p.2, pattern := cfg.regex_pattern,
                     method := .INDIRECT } : Candidate))
      .ok (sortCandidates (dCands ++ iCands))

/-- True when the success rate compares strictly below the threshold (false
for a NaN rate, as in Python float comparison). -/
def rateBelow (r : Option ℚ) (t : ℚ) : Bool :=
  match r with
  | none => false
  | some q => decide (q < t)

/-- Model of `find_best_postcode_column` (lines 214-225): take the top row
of the ranked results (raising on an empty frame) and compare its rate with
the threshold. -/
def find_best_postcode_column (ms : List Candidate) (success_threshold : ℚ) :
    Except Unit (Candidate × Bool) :=
  match ms with
  | [] => .error ()
  | best :: _ => .ok (best, ! rateBelow best.rate success_threshold)

/-- Model of `auto_convert_postcode_column` (lines 228-254): return the
caller's table unchanged when the threshold failed, else convert with the
selected column/method. -/
def auto_convert_postcode_column (ext : Value → Value) (df : Table)
    (best : Candidate) (passed : Bool) (lo hi : ℚ)
    (master : Option (List String)) : Except Unit (Table × Candidate) :=
  if passed = false then .ok (df, best)
  else
    match best.method with
    | .DIRECT =>
      match getColE df best.field with
      | .error e => .error e
      | .ok vals =>
        match ValidationB.validate_and_format_postcodes vals lo hi master with
        | .error e => .error e
        | .ok rows => .ok (applyValidationCols df rows, best)
    | .INDIRECT =>
      match getColE df best.field with
      | .error e => .error e
      | .ok vals =>
        let extracted := vals.map ext
        match ValidationB.validate_and_format_postcodes extracted lo hi master with
        | .error e => .error e
        | .ok rows => .ok (applyValidationCols [("EXTRACTED_POSTCODE", extracted)] rows, best)

/-- Model of `auto_identify_extract_postcodes` (lines 257-283). -/
def auto_identify_extract_postcodes (entropy : ℕ) (ext : Value → Value)
    (cfg : AutoIdentifyConfig) (df : Table) (lo hi : ℚ)
    (master : Option (List String)) : Except Unit (Table × Candidate) :=
  match calculate_all_match_success entropy ext cfg df lo hi master with
  | .error e => .error e
  | .ok ms =>
    match find_best_postcode_column ms cfg.success_threshold with
    | .error e => .error e
    | .ok (best, passed) => auto_convert_postcode_column ext df best passed lo hi master

end AutoIdent1

namespace AutoIdent2

/-- Configuration of the class-based identifier
(`postcode_identification/nodes/auto_identification.py`): the seed is taken
from the configuration and may be absent. -/
structure IdentifyConfig2 where
  regex_pattern : String
  sample_size : Option ℕ
  candidate_columns : Option (List String)
  seed : Option ℕ
  success_threshold : ℚ
deriving DecidableEq, Repr

/-- Mean of the flag column without an empty-frame guard: NaN (`none`) on an
empty frame. -/
def meanFlag (rows : List VRow) : Option ℚ :=
  if rows.isEmpty then none
  else some (mkRat ((rows.filter (·.flag)).length : ℤ) rows.length)

/-- Model of `IdentifyPostcodes.set_sample_candidate_df` (lines 133-139):
full copy when no sample size is configured, else a sample drawn with the
configured seed — or with ambient randomness when the seed is absent. -/
def set_sample_candidate_df (entropy : ℕ) (cfg : IdentifyConfig2) (t : Table) : Table :=
  match cfg.sample_size with
  | none => t
  | some n => sampleTable (drawSeed cfg.seed entropy) (min n (nrows t)) t

/-- Model of `IdentifyPostcodes.test_convert` (lines 203-237): per column,
one DIRECT and one INDIRECT candidate, then the ranked sort. -/
def test_convert (ext : Value → Value) (candidateDf : Table) (cols : List String)
    (pattern : String) (lo hi : ℚ) (master : Option (List String)) :
    Except Unit (List Candidate) :=
  match mapE (fun c =>
      match getColE candidateDf c with
      | .error e => .error e
      | .ok vals =>
        match ValidationB.validate_and_format_postcodes vals lo hi master with
        | .error e => .error e
        | .ok dr =>
          match ValidationB.validate_and_format_postcodes (vals.map ext) lo hi master with
          | .error e => .error e
          | .ok ir =>
            .ok ([{ field := c, rate := meanFlag dr, pattern := none, method := .DIRECT },
                  { field := c, rate := meanFlag ir, pattern := some pattern,
                    method := .INDIRECT }] : List Candidate)) cols with
  | .error e => .error e
  | .ok entries => .ok (sortCandidates entries.flatten)

/-- True when the rate compares strictly above the threshold
(`ConvertPostcodes.check_threshold`, lines 327-331); false for NaN. -/
def rateAbove (r : Option ℚ) (t : ℚ) : Bool :=
  match r with
  | none => false
  | some q => decide (t < q)

/-- Model of `ConvertPostcodes.convert_column` (lines 355-375). -/
def convert_column (ext : Value → Value) (df : Table) (top : Candidate)
    (lo hi : ℚ) (master : Option (List String)) : Except Unit Table :=
  match top.method with
  | .DIRECT =>
    match getColE df top.field with
    | .error e => .error e
    | .ok vals =>
      match ValidationB.validate_and_format_postcodes vals lo hi master with
      | .error e => .error e
      | .ok rows => .ok (applyValidationCols df rows)
  | .INDIRECT =>
    match getColE df top.field with
    | .error e => .error e
    | .ok vals =>
      let extracted := vals.map ext
      let df2 := setCol df "EXTRACTED_POSTCODE" extracted
      match ValidationB.validate_and_format_postcodes extracted lo hi master with
      | .error e => .error e
      | .ok rows => .ok (applyValidationCols df2 rows)

/-- Model of `auto_convert_postcodes` (lines 381-438): identify on the
sample, re-sort, take the top candidate (raising on an empty frame or a
missing column), and convert only when its rate is strictly above the
threshold; otherwise return the caller's table unchanged together with the
full ranked results. -/
def auto_convert_postcodes (entropy : ℕ) (ext : Value → Value) (df : Table)
    (lo hi : ℚ) (master : Option (List String)) (cfg : IdentifyConfig2) :
    Except Unit (Table × Bool × List Candidate) :=
  let sample := set_sample_candidate_df entropy cfg df
  match test_convert ext sample (columnNames sample) cfg.regex_pattern lo hi master with
  | .error e => .error e
  | .ok results =>
    match sortCandidates results with
    | [] => .error ()
    | top :: _ =>
      if (getCol df top.field).isNone then .error ()
      else if top.method = .INDIRECT ∧ top.pattern = none then .error ()
      else if rateAbove top.rate cfg.success_threshold then
        match convert_column ext df top lo hi master with
        | .error e => .error e
        | .ok converted => .ok (converted, true, results)
      else .ok (df, false, results)

end AutoIdent2

/-! ### Geocoding merge and statistics (`app/services/geocoding.py`,
`app/components/data_table.py`) -/

namespace Geocoding

/-- Row of the master geocoded reference: the `FORMATTED_POSTCODE` join key
and the `ADDRESS` and `LATITUDE` payload cells. -/
structure MRow where
  fpc : Value
  address : Value
  lat : Value
deriving DecidableEq, Repr

/-- Row of the converted user table entering the merge: its
`FORMATTED_POSTCODE` cell and its `INCORRECT_INPUT_POSTCODE_REASON` cell. -/
structure URow where
  fpc : Value
  reason : Option Reason
deriving DecidableEq, Repr

/-- Row of the merged output: the user row plus the matched reference row
(geo fields null when unmatched). -/
structure GRow where
  user : URow
  geo : Option MRow
deriving DecidableEq, Repr

/-- Fuel-based first-occurrence deduplication; the fuel bounds the list
length, so the recursion is structural and kernel-evaluable. -/
def dropDupAux : ℕ → List MRow → List MRow
  | 0, _ => []
  | _, [] => []
  | fuel + 1, r :: rest =>
    r :: dropDupAux fuel (rest.filter (fun x => ¬ x.fpc = r.fpc))

/-- Model of `drop_duplicates("FORMATTED_POSTCODE")` on the reference: keep
the first row of each key, preserving order. -/
def drop_duplicates (l : List MRow) : List MRow :=
  dropDupAux l.length l

/-- Model of `merge(..., how="left", validate="m:1")` on the postcode key:
raises when the right side has duplicate keys, else attaches to every left
row the unique matching right row (or nothing). -/
def merge_m1 (left : List URow) (right : List MRow) : Except Unit (List GRow) :=
  if (right.map (·.fpc)).Nodup then
    .ok (left.map (fun l => ⟨l, right.find? (fun r => decide (r.fpc = l.fpc))⟩))
  else .error ()

/-- Merge step of `process_geocoding` (lines 40-47): left-join the converted
user table against the deduplicated reference. -/
def process_geocoding_merge (user : List URow) (master : List MRow) :
    Except Unit (List GRow) :=
  merge_m1 user (drop_duplicates master)

/-- The `ADDRESS` cell of a merged row. -/
def addressCell (g : GRow) : Value :=
  match g.geo with
  | none => .na
  | some m => m.address

/-- The `LATITUDE` cell of a merged row. -/
def latitudeCell (g : GRow) : Value :=
  match g.geo with
  | none => .na
  | some m => m.lat

/-- Model of `matched_records = merged_df["ADDRESS"].notna().sum()`
(line 49): the count of rows with a non-null ADDRESS cell. -/
def matched_records (merged : List GRow) : ℕ :=
  (merged.filter (fun g => (addressCell g).isna = false)).length

/-- Model of `non_merged = merged_df.loc[merged_df["LATITUDE"].isna()]`
(`data_table.py`, line 36): the rows with a null latitude. -/
def non_merged (merged : List GRow) : List GRow :=
  merged.filter (fun g => (latitudeCell g).isna)

/-- Count of one failure reason in the histogram of `data_table.py`
(lines 55-57), taken over the unmatched rows. -/
def failure_reason_count (merged : List GRow) (r : Reason) : ℕ :=
  ((non_merged merged).filter (fun g => g.user.reason = some r)).length

/-- Count of merged rows with a non-null latitude. -/
def latitude_matched (merged : List GRow) : ℕ :=
  (merged.filter (fun g => (latitudeCell g).isna = false)).length

end Geocoding

/-! ### Row-level views of the pipelines (proof infrastructure) -/

namespace ValidationA

/-- Row-level view of the `k`-stage prefix of the variant-A pipeline; the
column-level `validate_upTo` is its `mapE` (proved below). -/
def rowUpTo (k : ℕ) (lo hi : ℚ) (master : Option (List String)) (v : Value) :
    Except Unit VRow :=
  if k ≤ 1 then .ok (parseNumericRow v) else
  if k ≤ 2 then .ok (checkIsIntegerRow (parseNumericRow v)) else
  if k ≤ 3 then
    .ok (checkPostcodeRangeRowA lo hi (checkIsIntegerRow (parseNumericRow v))) else
  match formatValidRow
      (checkPostcodeRangeRowA lo hi (checkIsIntegerRow (parseNumericRow v))) with
  | .error e => .error e
  | .ok r4 =>
    if k ≤ 4 then .ok r4 else
    match master with
    | none => .ok r4
    | some m => .ok (checkInMasterRow m r4)

/-- Action of stage `j` (for `2 ≤ j ≤ 5`) on a single row. -/
def rowStep (j : ℕ) (lo hi : ℚ) (master : Option (List String)) (r : VRow) :
    Except Unit VRow :=
  match j with
  | 2 => .ok (checkIsIntegerRow r)
  | 3 => .ok (checkPostcodeRangeRowA lo hi r)
  | 4 => formatValidRow r
  | 5 =>
    match master with
    | none => .ok r
    | some m => .ok (checkInMasterRow m r)
  | _ => .ok r

end ValidationA

namespace ValidationB

/-- Row-level view of the variant-B pipeline. -/
def rowB (lo hi : ℚ) (master : Option (List String)) (v : Value) :
    Except Unit VRow :=
  match formatValidRow (checkPostcodeRangeRowB lo hi (parseNumericRow v)) with
  | .error e => .error e
  | .ok r3 =>
    match master with
    | none => .ok r3
    | some m => .ok (checkInMasterRow m r3)

end ValidationB

/-- Intra-pipeline row invariant (holds after stages 1-4 of variant A): the
flag, the absence of a reason and the presence of a working value agree. -/
def StageInv (r : VRow) : Prop :=
  (r.flag = true ↔ r.reason = none) ∧ (r.flag = true ↔ ¬ r.formatted = .na)

/-- Persistent invalid-row state: false flag, fixed reason, cleared working
value. -/
def Qrow (reas : Reason) (r : VRow) : Prop :=
  r.flag = false ∧ r.reason = some reas ∧ r.formatted = .na

/-- Per-row field relation after the `k`-stage prefix of variant A: the flag
agrees with the absence of a reason; a flagged row has a non-null formatted
value; through stage 4 the converse holds as well; and the only way an
unflagged row keeps a non-null formatted value is the master-dataset
rejection. -/
def rowInvariantAt (k : ℕ) (r : VRow) : Prop :=
  (r.flag = true ↔ r.reason = none) ∧
  (r.flag = true → ¬ r.formatted = .na) ∧
  (k ≤ 4 → ¬ r.formatted = .na → r.flag = true) ∧
  (r.flag = false → ¬ r.formatted = .na → r.reason = some .NOT_IN_MASTER_DATASET)

/-- Ranking relation claimed of the identification results: rates descend
(NaN rates last), and on equal rates no INDIRECT candidate precedes a DIRECT
one. -/
def rankedAfter (a b : Candidate) : Prop :=
  (∀ p q, a.rate = some p → b.rate = some q → q ≤ p) ∧
  (a.rate = none → b.rate = none) ∧
  (a.rate = b.rate → ¬ (a.method = .INDIRECT ∧ b.method = .DIRECT))

/-- Map the success payload of an `Except` result. -/
def okMap (h : β → γ) : Except Unit β → Except Unit γ
  | .error e => .error e
  | .ok b => .ok (h b)

/-- Degenerate concrete instantiation of the abstracted regex extraction,
used to evaluate the identification model on concrete inputs. -/
def trivialExtract : Value → Value := fun _ => .na

/-! ### Lemmas about `mapE` -/

theorem mapE_ok_length {f : α → Except Unit β} :
    ∀ {l : List α} {ys : List β}, mapE f l = .ok ys → ys.length = l.length := by
  intro l
  induction l with
  | nil =>
    intro ys h
    simp only [mapE] at h
    cases h
    rfl
  | cons a l ih =>
    intro ys h
    simp only [mapE] at h
    cases hfa : f a with
    | error e => rw [hfa] at h; cases h
    | ok b =>
      rw [hfa] at h
      cases hrec : mapE f l with
      | error e => rw [hrec] at h; cases h
      | ok bs =>
        rw [hrec] at h
        cases h
        simp [ih hrec]

theorem mapE_ok_get {f : α → Except Unit β} :
    ∀ {l : List α} {ys : List β}, mapE f l = .ok ys →
      ∀ i (hl : i < l.length) (hy : i < ys.length),
        f (l.get ⟨i, hl⟩) = .ok (ys.get ⟨i, hy⟩) := by
  intro l
  induction l with
  | nil =>
    intro ys _ i hl
    exact absurd hl (by simp)
  | cons a l ih =>
    intro ys h i hl hy
    simp only [mapE] at h
    cases hfa : f a with
    | error e => rw [hfa] at h; cases h
    | ok b =>
      rw [hfa] at h
      cases hrec : mapE f l with
      | error e => rw [hrec] at h; cases h
      | ok bs =>
        rw [hrec] at h
        cases h
        cases i with
        | zero => simpa using hfa
        | succ j =>
          have hl' : j < l.length := by simpa using hl
          have hy' : j < bs.length := by simpa using hy
          simpa using ih hrec j hl' hy'

theorem mapE_congr {f g : α → Except Unit β} (hfg : ∀ a, f a = g a) :
    ∀ (l : List α), mapE f l = mapE g l := by
  intro l
  induction l with
  | nil => rfl
  | cons a l ih => simp only [mapE, hfg a, ih]

theorem mapE_pure (f : α → β) :
    ∀ (l : List α), mapE (fun a => Except.ok (f a)) l = .ok (l.map f) := by
  intro l
  induction l with
  | nil => rfl
  | cons a l ih => simp only [mapE, ih, List.map_cons]

theorem mapE_comp_map (g : α → β) (f : β → Except Unit γ) :
    ∀ (l : List α), mapE f (l.map g) = mapE (fun a => f (g a)) l := by
  intro l
  induction l with
  | nil => rfl
  | cons a l ih => simp only [List.map_cons, mapE, ih]

theorem mapE_postMap (f : α → Except Unit β) (h : β → γ) :
    ∀ (l : List α),
      okMap (List.map h) (mapE f l) = mapE (fun a => okMap h (f a)) l := by
  intro l
  induction l with
  | nil => rfl
  | cons a l ih =>
    simp only [mapE]
    cases f a with
    | error e => rfl
    | ok b =>
      rw [← ih]
      cases mapE f l with
      | error e => rfl
      | ok ys => rfl

theorem mapE_error_of_mem {f : α → Except Unit β} {a : α} :
    ∀ {l : List α}, a ∈ l → f a = .error () → mapE f l = .error () := by
  intro l
  induction l with
  | nil => intro h; exact absurd h (by simp)
  | cons b l ih =>
    intro hmem herr
    simp only [mapE]
    rcases List.mem_cons.mp hmem with h | h
    · subst h
      rw [herr]
    · cases hfb : f b with
      | error e => cases e; rfl
      | ok c =>
        rw [ih h herr]

theorem except_match_ident :
    ∀ (e : Except Unit α),
      (match e with
        | .error e' => Except.error e'
        | .ok ys => .ok ys) = e := by
  intro e
  cases e <;> rfl

/-! ### The column pipelines are row-wise -/

theorem ValidationA.fuse3 (vals : List Value) (lo hi : ℚ) :
    check_postcode_range lo hi (check_is_integer (parse_numeric_postcodes vals))
      = vals.map (fun v =>
          checkPostcodeRangeRowA lo hi (checkIsIntegerRow (parseNumericRow v))) := by
  simp [parse_numeric_postcodes, check_is_integer, check_postcode_range,
    List.map_map, Function.comp]

theorem ValidationA.format3 (vals : List Value) (lo hi : ℚ) :
    format_valid_postcodes (check_postcode_range lo hi
        (check_is_integer (parse_numeric_postcodes vals)))
      = mapE (fun v => formatValidRow
          (checkPostcodeRangeRowA lo hi (checkIsIntegerRow (parseNumericRow v)))) vals := by
  rw [fuse3]
  exact mapE_comp_map _ _ vals

/-! ### Row-level facts about the validation stages -/

theorem to_numeric_isna {v : Value} {q : ℚ} (h : to_numeric v = some q) :
    v.isna = false := by
  cases v <;> simp_all [to_numeric, Value.isna]

theorem parseNumericRow_of_some {v : Value} {q : ℚ} (h : to_numeric v = some q) :
    parseNumericRow v = ⟨v, .num q, true, none⟩ := by
  simp [parseNumericRow, h, numOfOption, to_numeric_isna h]

theorem parseNumericRow_na : parseNumericRow .na = ⟨.na, .na, false, some .NO_INPUT_PROVIDED⟩ := by
  simp [parseNumericRow, to_numeric, Value.isna, numOfOption]

theorem parseNumericRow_stageInv (v : Value) : StageInv (parseNumericRow v) := by
  unfold StageInv parseNumericRow
  cases v with
  | na => simp [to_numeric, Value.isna, numOfOption]
  | num q => simp [to_numeric, Value.isna, numOfOption]
  | bool b => simp [to_numeric, Value.isna, numOfOption]
  | str s =>
    cases h : parseDecimal s with
    | none => simp [to_numeric, Value.isna, numOfOption, h]
    | some q => simp [to_numeric, Value.isna, numOfOption, h]

theorem checkIsIntegerRow_na {r : VRow} (h : r.formatted = .na) :
    checkIsIntegerRow r = r := by
  simp [checkIsIntegerRow, h]

theorem checkIsIntegerRow_frac {r : VRow} {q : ℚ} (h : r.formatted = .num q)
    (hq : ¬ q.den = 1) :
    checkIsIntegerRow r
      = { r with reason := some .NOT_INTEGER, flag := false, formatted := .na } := by
  simp [checkIsIntegerRow, h, hq]

theorem checkIsIntegerRow_int {r : VRow} {q : ℚ} (h : r.formatted = .num q)
    (hq : q.den = 1) :
    checkIsIntegerRow r = r := by
  simp [checkIsIntegerRow, h, hq]

theorem checkIsIntegerRow_other {r : VRow}
    (h : (∀ q, ¬ r.formatted = .num q)) : checkIsIntegerRow r = r := by
  unfold checkIsIntegerRow
  cases hf : r.formatted with
  | num q => exact absurd hf (h q)
  | na => simp
  | bool b => simp
  | str s => simp

theorem checkIsIntegerRow_stageInv {r : VRow} (h : StageInv r) :
    StageInv (checkIsIntegerRow r) := by
  rcases h with ⟨h1, h2⟩
  cases hf : r.formatted with
  | num q =>
    by_cases hq : q.den = 1
    · rw [checkIsIntegerRow_int hf hq]
      exact ⟨h1, h2⟩
    · rw [checkIsIntegerRow_frac hf hq]
      exact ⟨by simp, by simp⟩
  | na =>
    rw [checkIsIntegerRow_na hf]
    exact ⟨h1, h2⟩
  | bool b =>
    rw [checkIsIntegerRow_other (by simp [hf])]
    exact ⟨h1, h2⟩
  | str s =>
    rw [checkIsIntegerRow_other (by simp [hf])]
    exact ⟨h1, h2⟩

theorem checkPostcodeRangeRowA_na {r : VRow} (lo hi : ℚ) (h : r.formatted = .na) :
    checkPostcodeRangeRowA lo hi r = r := by
  simp [checkPostcodeRangeRowA, outOfRangeMask, h]

theorem checkPostcodeRangeRowA_in {r : VRow} {q : ℚ} (lo hi : ℚ)
    (h : r.formatted = .num q) (hin : lo ≤ q ∧ q ≤ hi) :
    checkPostcodeRangeRowA lo hi r = r := by
  simp [checkPostcodeRangeRowA, outOfRangeMask, h, hin]

theorem checkPostcodeRangeRowA_out {r : VRow} {q : ℚ} (lo hi : ℚ)
    (h : r.formatted = .num q) (hout : ¬ (lo ≤ q ∧ q ≤ hi)) :
    checkPostcodeRangeRowA lo hi r
      = { r with reason := some .OUT_OF_RANGE, flag := false, formatted := .na } := by
  simp [checkPostcodeRangeRowA, outOfRangeMask, h, hout]

theorem checkPostcodeRangeRowA_stageInv {r : VRow} (lo hi : ℚ) (h : StageInv r) :
    StageInv (checkPostcodeRangeRowA lo hi r) := by
  unfold checkPostcodeRangeRowA
  by_cases hm : outOfRangeMask lo hi r
  · simp [hm, StageInv]
  · simpa [hm] using h

theorem checkPostcodeRangeRowA_flag_true {r : VRow} {lo hi : ℚ}
    (h : (checkPostcodeRangeRowA lo hi r).flag = true) :
    checkPostcodeRangeRowA lo hi r = r ∧ ¬ outOfRangeMask lo hi r := by
  by_cases hm : outOfRangeMask lo hi r
  · simp [checkPostcodeRangeRowA, hm] at h
  · simp [checkPostcodeRangeRowA, hm]

theorem formatValidRow_na {r : VRow} (h : r.formatted = .na) :
    formatValidRow r = .ok r := by
  simp only [formatValidRow, h, astypeInt64Cell, ite_self]
  cases r
  simp_all

theorem formatValidRow_int {r : VRow} {q : ℚ} (h : r.formatted = .num q)
    (hq : q.den = 1) :
    formatValidRow r
      = .ok { r with formatted := if r.flag then .str (zfill6 q.num) else .na } := by
  simp [formatValidRow, h, astypeInt64Cell, hq]

theorem formatValidRow_frac {r : VRow} {q : ℚ} (h : r.formatted = .num q)
    (hq : ¬ q.den = 1) :
    formatValidRow r = .error () := by
  simp [formatValidRow, h, astypeInt64Cell, hq]

theorem formatValidRow_stageInv {r r' : VRow} (h : StageInv r)
    (hf : formatValidRow r = .ok r') : StageInv r' := by
  rcases h with ⟨h1, h2⟩
  cases hv : r.formatted with
  | na =>
    rw [formatValidRow_na hv] at hf
    cases hf
    exact ⟨h1, h2⟩
  | num q =>
    by_cases hq : q.den = 1
    · rw [formatValidRow_int hv hq] at hf
      cases hf
      refine ⟨h1, ?_, ?_⟩
      · intro hflag
        have hflag' : r.flag = true := hflag
        show ¬ (if r.flag = true then Value.str (zfill6 q.num) else Value.na) = Value.na
        rw [hflag']
        simp
      · intro hne
        show r.flag = true
        cases hr : r.flag with
        | true => rfl
        | false =>
          refine absurd ?_ hne
          show (if r.flag = true then Value.str (zfill6 q.num) else Value.na) = Value.na
          rw [hr]
          simp
    · rw [formatValidRow_frac hv hq] at hf
      cases hf
  | bool b => simp [formatValidRow, hv, astypeInt64Cell] at hf
  | str s => simp [formatValidRow, hv, astypeInt64Cell] at hf

theorem checkInMasterRow_flag_false {m : List String} {r : VRow}
    (h : r.flag = false) : checkInMasterRow m r = r := by
  simp [checkInMasterRow, h]

theorem checkInMasterRow_mask_true {m : List String} {r : VRow}
    (hmask : (!(match r.formatted with
        | Value.str s => decide (s ∈ m)
        | _ => false) && r.flag) = true) :
    checkInMasterRow m r = { r with reason := some .NOT_IN_MASTER_DATASET, flag := false } := by
  simp only [checkInMasterRow, hmask, if_true]

theorem checkInMasterRow_mask_false {m : List String} {r : VRow}
    (hmask : ¬ (!(match r.formatted with
        | Value.str s => decide (s ∈ m)
        | _ => false) && r.flag) = true) :
    checkInMasterRow m r = r := by
  simp only [checkInMasterRow, if_neg hmask]

theorem checkInMasterRow_formatted (m : List String) (r : VRow) :
    (checkInMasterRow m r).formatted = r.formatted := by
  by_cases hmask : (!(match r.formatted with
      | Value.str s => decide (s ∈ m)
      | _ => false) && r.flag) = true
  · rw [checkInMasterRow_mask_true hmask]
  · rw [checkInMasterRow_mask_false hmask]

theorem checkInMasterRow_rowInvariant {m : List String} {r : VRow}
    (h : StageInv r) : rowInvariantAt 5 (checkInMasterRow m r) := by
  rcases h with ⟨h1, h2⟩
  by_cases hmask : (!(match r.formatted with
      | Value.str s => decide (s ∈ m)
      | _ => false) && r.flag) = true
  · have hflag : r.flag = true := ((Bool.and_eq_true _ _).mp hmask).2
    rw [checkInMasterRow_mask_true hmask]
    refine ⟨by simp, by simp, ?_, fun _ _ => rfl⟩
    intro hk
    exact absurd hk (by norm_num)
  · rw [checkInMasterRow_mask_false hmask]
    refine ⟨h1, fun hflag => h2.mp hflag, ?_, fun hflag hne => ?_⟩
    · intro _ hne
      exact h2.mpr hne
    · exact absurd (h2.mpr hne) (by simp [hflag])

/-! ### Further row-level facts -/

theorem parseNumericRow_formatted (v : Value) :
    (parseNumericRow v).formatted = numOfOption (to_numeric v) := by
  unfold parseNumericRow
  by_cases h1 : (to_numeric v).isNone ∧ v.isna = false
  all_goals by_cases h2 : v.isna = true
  all_goals simp [h1, h2]
  all_goals split
  all_goals rfl

theorem checkPostcodeRangeRowB_formatted (lo hi : ℚ) (r : VRow) :
    (checkPostcodeRangeRowB lo hi r).formatted = r.formatted := by
  unfold checkPostcodeRangeRowB
  by_cases h : outOfRangeMask lo hi r <;> simp [h]

theorem checkPostcodeRangeRowB_na {r : VRow} (lo hi : ℚ) (h : r.formatted = .na) :
    checkPostcodeRangeRowB lo hi r = r := by
  simp [checkPostcodeRangeRowB, outOfRangeMask, h]

theorem formatValidRow_fields {r r' : VRow} (h : formatValidRow r = .ok r') :
    r'.flag = r.flag ∧ r'.reason = r.reason ∧ r'.input = r.input := by
  unfold formatValidRow at h
  cases ha : astypeInt64Cell r.formatted with
  | error e => rw [ha] at h; cases h
  | ok i =>
    rw [ha] at h
    cases h
    exact ⟨rfl, rfl, rfl⟩

theorem rowB_error_of_frac {lo hi : ℚ} {master : Option (List String)}
    {v : Value} {q : ℚ} (hq : to_numeric v = some q) (hden : ¬ q.den = 1) :
    ValidationB.rowB lo hi master v = .error () := by
  have hfmt : (checkPostcodeRangeRowB lo hi (parseNumericRow v)).formatted = .num q := by
    rw [checkPostcodeRangeRowB_formatted, parseNumericRow_formatted, hq]
    rfl
  have herr := formatValidRow_frac hfmt hden
  simp [ValidationB.rowB, herr]

theorem rowB_na {lo hi : ℚ} {master : Option (List String)} :
    ValidationB.rowB lo hi master .na
      = .ok ⟨.na, .na, false, some .NO_INPUT_PROVIDED⟩ := by
  have h1 := parseNumericRow_na
  unfold ValidationB.rowB
  rw [h1, checkPostcodeRangeRowB_na lo hi rfl, formatValidRow_na rfl]
  cases master with
  | none => rfl
  | some m =>
    show Except.ok (checkInMasterRow m ⟨.na, .na, false, some .NO_INPUT_PROVIDED⟩) = _
    rw [checkInMasterRow_flag_false rfl]

/-! ### Shapes of the row-level prefixes -/

theorem ValidationA.rowUpTo_one (lo hi : ℚ) (master : Option (List String)) (v : Value) :
    rowUpTo 1 lo hi master v = .ok (parseNumericRow v) := rfl

theorem ValidationA.rowUpTo_two (lo hi : ℚ) (master : Option (List String)) (v : Value) :
    rowUpTo 2 lo hi master v = .ok (checkIsIntegerRow (parseNumericRow v)) := rfl

theorem ValidationA.rowUpTo_three (lo hi : ℚ) (master : Option (List String)) (v : Value) :
    rowUpTo 3 lo hi master v
      = .ok (checkPostcodeRangeRowA lo hi (checkIsIntegerRow (parseNumericRow v))) := rfl

theorem ValidationA.rowUpTo_four (lo hi : ℚ) (master : Option (List String)) (v : Value) :
    rowUpTo 4 lo hi master v
      = formatValidRow (checkPostcodeRangeRowA lo hi (checkIsIntegerRow (parseNumericRow v))) := by
  show (match formatValidRow
      (checkPostcodeRangeRowA lo hi (checkIsIntegerRow (parseNumericRow v))) with
    | Except.error e => (Except.error e : Except Unit VRow)
    | Except.ok r4 =>
      if 4 ≤ 4 then Except.ok r4 else
      match master with
      | none => Except.ok r4
      | some m => Except.ok (checkInMasterRow m r4)) = _
  cases formatValidRow (checkPostcodeRangeRowA lo hi (checkIsIntegerRow (parseNumericRow v))) with
  | error e => rfl
  | ok r4 => rfl

theorem ValidationA.rowUpTo_five_none (lo hi : ℚ) (v : Value) :
    rowUpTo 5 lo hi none v
      = formatValidRow (checkPostcodeRangeRowA lo hi (checkIsIntegerRow (parseNumericRow v))) := by
  show (match formatValidRow
      (checkPostcodeRangeRowA lo hi (checkIsIntegerRow (parseNumericRow v))) with
    | Except.error e => (Except.error e : Except Unit VRow)
    | Except.ok r4 =>
      if 5 ≤ 4 then Except.ok r4 else
      match (none : Option (List String)) with
      | none => Except.ok r4
      | some m => Except.ok (checkInMasterRow m r4)) = _
  cases formatValidRow (checkPostcodeRangeRowA lo hi (checkIsIntegerRow (parseNumericRow v))) with
  | error e => rfl
  | ok r4 => rfl

theorem ValidationA.rowUpTo_five_some (lo hi : ℚ) (m : List String) (v : Value) :
    rowUpTo 5 lo hi (some m) v
      = okMap (checkInMasterRow m) (formatValidRow
          (checkPostcodeRangeRowA lo hi (checkIsIntegerRow (parseNumericRow v)))) := by
  show (match formatValidRow
      (checkPostcodeRangeRowA lo hi (checkIsIntegerRow (parseNumericRow v))) with
    | Except.error e => (Except.error e : Except Unit VRow)
    | Except.ok r4 =>
      if 5 ≤ 4 then Except.ok r4 else
      match (some m : Option (List String)) with
      | none => Except.ok r4
      | some m => Except.ok (checkInMasterRow m r4)) = _
  cases formatValidRow (checkPostcodeRangeRowA lo hi (checkIsIntegerRow (parseNumericRow v))) with
  | error e => rfl
  | ok r4 => rfl

/-! ### Digit-rendering facts -/

theorem digitChar_isDigit {n : ℕ} (h : n < 10) : (digitChar n).isDigit = true := by
  interval_cases n <;> decide

theorem natDigitsAux_digit :
    ∀ (fuel n : ℕ), ∀ c ∈ natDigitsAux fuel n, c.isDigit = true := by
  intro fuel
  induction fuel with
  | zero => intro n c hc; simp [natDigitsAux] at hc
  | succ fuel ih =>
    intro n c hc
    unfold natDigitsAux at hc
    by_cases h : n < 10
    · rw [if_pos h] at hc
      simp at hc
      rw [hc]
      exact digitChar_isDigit h
    · rw [if_neg h] at hc
      rcases List.mem_append.mp hc with h1 | h1
      · exact ih _ _ h1
      · simp at h1
        rw [h1]
        exact digitChar_isDigit (Nat.mod_lt _ (by omega))

theorem natDigitsAux_length :
    ∀ (fuel K n : ℕ), n < fuel → n < 10 ^ K → 1 ≤ K →
      (natDigitsAux fuel n).length ≤ K := by
  intro fuel
  induction fuel with
  | zero => intro K n h; omega
  | succ fuel ih =>
    intro K n hfuel hK h1
    unfold natDigitsAux
    by_cases h : n < 10
    · rw [if_pos h]
      simpa using h1
    · rw [if_neg h]
      have hK2 : 2 ≤ K := by
        by_contra hcon
        have hK1 : K = 1 := by omega
        rw [hK1] at hK
        simp at hK
        omega
      have hdiv : n / 10 < 10 ^ (K - 1) := by
        have h10 : (10 : ℕ) ^ K = 10 ^ (K - 1) * 10 := by
          rw [← pow_succ]
          congr 1
          omega
        rw [Nat.div_lt_iff_lt_mul (by omega)]
        omega
      have hfuel' : n / 10 < fuel := by
        have : n / 10 < n := Nat.div_lt_self (by omega) (by omega)
        omega
      have := ih (K - 1) (n / 10) hfuel' hdiv (by omega)
      simp only [List.length_append, List.length_cons, List.length_nil]
      omega

theorem zfill6_spec {z : ℤ} (h0 : 0 ≤ z) (h6 : z ≤ 999999) :
    (zfill6 z).length = 6 ∧ ∀ c ∈ (zfill6 z).data, c.isDigit = true := by
  have hz : ¬ z < 0 := by omega
  have hlen : (natDigits z.natAbs).length ≤ 6 := by
    refine natDigitsAux_length _ 6 _ (by omega) ?_ (by norm_num)
    have : z.natAbs ≤ 999999 := by omega
    omega
  unfold zfill6
  rw [if_neg hz]
  constructor
  · show (List.replicate (6 - (natDigits z.natAbs).length) '0'
      ++ natDigits z.natAbs).length = 6
    simp only [List.length_append, List.length_replicate]
    omega
  · intro c hc
    rcases List.mem_append.mp hc with h1 | h1
    · rw [List.eq_of_mem_replicate h1]
      decide
    · exact natDigitsAux_digit _ _ c h1

/-! ### Variant-A full-pipeline row facts -/

theorem ValidationA.rowA_na (lo hi : ℚ) (master : Option (List String)) :
    rowUpTo 5 lo hi master .na
      = .ok ⟨.na, .na, false, some .NO_INPUT_PROVIDED⟩ := by
  cases master with
  | none =>
    rw [rowUpTo_five_none, parseNumericRow_na, checkIsIntegerRow_na rfl,
      checkPostcodeRangeRowA_na lo hi rfl, formatValidRow_na rfl]
  | some m =>
    rw [rowUpTo_five_some, parseNumericRow_na, checkIsIntegerRow_na rfl,
      checkPostcodeRangeRowA_na lo hi rfl, formatValidRow_na rfl]
    show Except.ok (checkInMasterRow m ⟨.na, .na, false, some .NO_INPUT_PROVIDED⟩) = _
    rw [checkInMasterRow_flag_false rfl]

theorem ValidationA.rowA_frac {lo hi : ℚ} {master : Option (List String)}
    {v : Value} {q : ℚ} (hq : to_numeric v = some q) (hden : ¬ q.den = 1) :
    rowUpTo 5 lo hi master v = .ok ⟨v, .na, false, some .NOT_INTEGER⟩ := by
  have hp := parseNumericRow_of_some hq
  cases master with
  | none =>
    rw [rowUpTo_five_none, hp, checkIsIntegerRow_frac rfl hden,
      checkPostcodeRangeRowA_na lo hi rfl, formatValidRow_na rfl]
  | some m =>
    rw [rowUpTo_five_some, hp, checkIsIntegerRow_frac rfl hden,
      checkPostcodeRangeRowA_na lo hi rfl, formatValidRow_na rfl]
    show Except.ok (checkInMasterRow m ⟨v, .na, false, some .NOT_INTEGER⟩) = _
    rw [checkInMasterRow_flag_false rfl]

theorem ValidationA.stage3_flag_true {lo hi : ℚ} {v : Value}
    (h : (checkPostcodeRangeRowA lo hi (checkIsIntegerRow (parseNumericRow v))).flag = true) :
    ∃ q : ℚ, to_numeric v = some q ∧ q.den = 1 ∧ lo ≤ q ∧ q ≤ hi ∧
      checkPostcodeRangeRowA lo hi (checkIsIntegerRow (parseNumericRow v))
        = ⟨v, .num q, true, none⟩ := by
  cases hq : to_numeric v with
  | none =>
    have hfmt : (parseNumericRow v).formatted = .na := by
      rw [parseNumericRow_formatted, hq]
      rfl
    rw [checkIsIntegerRow_na hfmt, checkPostcodeRangeRowA_na lo hi hfmt] at h
    have hinv := parseNumericRow_stageInv v
    have hne := hinv.2.mp h
    exact absurd hfmt hne
  | some q =>
    have hp := parseNumericRow_of_some hq
    rw [hp] at h ⊢
    by_cases hden : q.den = 1
    · rw [checkIsIntegerRow_int rfl hden] at h ⊢
      by_cases hin : lo ≤ q ∧ q ≤ hi
      · rw [checkPostcodeRangeRowA_in lo hi rfl hin]
        exact ⟨q, rfl, hden, hin.1, hin.2, rfl⟩
      · rw [checkPostcodeRangeRowA_out lo hi rfl hin] at h
        simp at h
    · rw [checkIsIntegerRow_frac rfl hden, checkPostcodeRangeRowA_na lo hi rfl] at h
      simp at h

theorem ValidationA.rowUpTo4_flag_true {lo hi : ℚ} {master : Option (List String)}
    {v : Value} {r : VRow} (hlo : 0 ≤ lo) (hhi : hi ≤ 999999)
    (h : rowUpTo 4 lo hi master v = .ok r) (hflag : r.flag = true) :
    ∃ s : String, r.formatted = .str s ∧ s.length = 6 ∧
      ∀ c ∈ s.data, c.isDigit = true := by
  rw [rowUpTo_four] at h
  have hfl3 : (checkPostcodeRangeRowA lo hi (checkIsIntegerRow (parseNumericRow v))).flag
      = true := by
    have hfields := (formatValidRow_fields h).1
    rw [← hfields]
    exact hflag
  rcases stage3_flag_true hfl3 with ⟨q, hq, hden, hge, hle, heq⟩
  rw [heq] at h
  rw [formatValidRow_int rfl hden] at h
  cases h
  have hnum0 : (0 : ℤ) ≤ q.num := by
    rw [Rat.num_nonneg]
    linarith
  have hqq : (q.num : ℚ) = q := by
    rw [Rat.den_eq_one_iff] at hden
    exact hden
  have hnum6 : q.num ≤ 999999 := by
    have hcast : (q.num : ℚ) ≤ (999999 : ℚ) := by
      rw [hqq]
      linarith
    exact_mod_cast hcast
  rcases zfill6_spec hnum0 hnum6 with ⟨hl, hd⟩
  exact ⟨zfill6 q.num, by simp, hl, hd⟩

/-! ### Invariants of the row-level prefixes -/

theorem stageInv_rowInvariant {k : ℕ} {r : VRow} (_hk : k ≤ 4) (h : StageInv r) :
    rowInvariantAt k r := by
  rcases h with ⟨a, b⟩
  exact ⟨a, fun hf => b.mp hf, fun _ hne => b.mpr hne,
    fun hflag hne => absurd (b.mpr hne) (by simp [hflag])⟩

theorem stageInv_rowInvariant_five {r : VRow} (h : StageInv r) :
    rowInvariantAt 5 r := by
  rcases h with ⟨a, b⟩
  exact ⟨a, fun hf => b.mp hf, fun h5 => absurd h5 (by norm_num),
    fun hflag hne => absurd (b.mpr hne) (by simp [hflag])⟩

theorem ValidationA.rowUpTo_rowInvariant {k : ℕ} {lo hi : ℚ}
    {master : Option (List String)} {v : Value} {r : VRow}
    (h1 : 1 ≤ k) (h5 : k ≤ 5) (h : rowUpTo k lo hi master v = .ok r) :
    rowInvariantAt k r := by
  interval_cases k
  · rw [rowUpTo_one] at h
    cases h
    exact stageInv_rowInvariant (by norm_num) (parseNumericRow_stageInv v)
  · rw [rowUpTo_two] at h
    cases h
    exact stageInv_rowInvariant (by norm_num)
      (checkIsIntegerRow_stageInv (parseNumericRow_stageInv v))
  · rw [rowUpTo_three] at h
    cases h
    exact stageInv_rowInvariant (by norm_num)
      (checkPostcodeRangeRowA_stageInv lo hi
        (checkIsIntegerRow_stageInv (parseNumericRow_stageInv v)))
  · rw [rowUpTo_four] at h
    exact stageInv_rowInvariant (by norm_num)
      (formatValidRow_stageInv
        (checkPostcodeRangeRowA_stageInv lo hi
          (checkIsIntegerRow_stageInv (parseNumericRow_stageInv v))) h)
  · cases master with
    | none =>
      rw [rowUpTo_five_none] at h
      exact stageInv_rowInvariant_five
        (formatValidRow_stageInv
          (checkPostcodeRangeRowA_stageInv lo hi
            (checkIsIntegerRow_stageInv (parseNumericRow_stageInv v))) h)
    | some m =>
      rw [rowUpTo_five_some] at h
      cases hf : formatValidRow
          (checkPostcodeRangeRowA lo hi (checkIsIntegerRow (parseNumericRow v))) with
      | error e => rw [hf] at h; cases h
      | ok r4 =>
        rw [hf] at h
        cases h
        exact checkInMasterRow_rowInvariant
          (formatValidRow_stageInv
            (checkPostcodeRangeRowA_stageInv lo hi
              (checkIsIntegerRow_stageInv (parseNumericRow_stageInv v))) hf)

/-! ### The ranked-results sort -/

theorem candLE_rankedAfter {a b : Candidate} (h : candLE a b) : rankedAfter a b := by
  unfold candLE lex3LE candKey at h
  refine ⟨?_, ?_, ?_⟩
  · intro p q hp hq
    rw [hp, hq] at h
    simp only [rateNaFlag, rateVal] at h
    rcases h with h | ⟨_, h⟩
    · exact absurd h (lt_irrefl _)
    · rcases h with h | ⟨h, _⟩
      · linarith
      · have hpq : p = q := by linarith
        linarith
  · intro ha
    cases hb : b.rate with
    | none => rfl
    | some q =>
      rw [ha, hb] at h
      simp [rateNaFlag] at h
  · intro hr hcon
    rcases hcon with ⟨hA, hB⟩
    rw [hr, hA, hB] at h
    simp only [mtypeRank] at h
    rcases h with h | ⟨_, h⟩
    · exact absurd h (lt_irrefl _)
    · rcases h with h | ⟨_, h⟩
      · exact absurd h (lt_irrefl _)
      · omega

theorem sortCandidates_pairwise (l : List Candidate) :
    (sortCandidates l).Pairwise rankedAfter :=
  List.Pairwise.imp (fun h => candLE_rankedAfter h)
    (List.sorted_insertionSort candLE l)

/-! ### Geocoding merge facts -/

theorem Geocoding.dropDupAux_mem :
    ∀ (fuel : ℕ) (l : List MRow) (x : MRow), x ∈ dropDupAux fuel l → x ∈ l := by
  intro fuel
  induction fuel with
  | zero => intro l x hx; simp [dropDupAux] at hx
  | succ fuel ih =>
    intro l x hx
    cases l with
    | nil => simp [dropDupAux] at hx
    | cons r rest =>
      simp only [dropDupAux] at hx
      rcases List.mem_cons.mp hx with h | h
      · exact h ▸ List.mem_cons_self r rest
      · have hmem := ih _ _ h
        exact List.mem_cons_of_mem r (List.mem_of_mem_filter hmem)

theorem Geocoding.dropDupAux_keys_nodup :
    ∀ (fuel : ℕ) (l : List MRow), l.length ≤ fuel →
      ((dropDupAux fuel l).map (·.fpc)).Nodup := by
  intro fuel
  induction fuel with
  | zero =>
    intro l hl
    have : l = [] := List.length_eq_zero.mp (by omega)
    subst this
    simp [dropDupAux]
  | succ fuel ih =>
    intro l hl
    cases l with
    | nil => simp [dropDupAux]
    | cons r rest =>
      simp only [dropDupAux, List.map_cons, List.nodup_cons]
      constructor
      · intro hmem
        rcases List.mem_map.mp hmem with ⟨x, hx, hfpc⟩
        have hxf := dropDupAux_mem _ _ _ hx
        have hne := List.of_mem_filter hxf
        simp at hne
        exact hne hfpc
      · refine ih _ ?_
        have hle := List.length_filter_le (fun x => decide ¬ x.fpc = r.fpc) rest
        simp only [List.length_cons] at hl
        omega

theorem Geocoding.drop_duplicates_mem {l : List MRow} {x : MRow}
    (h : x ∈ drop_duplicates l) : x ∈ l :=
  dropDupAux_mem _ _ _ h

theorem Geocoding.drop_duplicates_keys_nodup (l : List MRow) :
    ((drop_duplicates l).map (·.fpc)).Nodup :=
  dropDupAux_keys_nodup _ _ (le_refl _)

theorem Geocoding.process_geocoding_merge_ok (user : List URow) (master : List MRow) :
    process_geocoding_merge user master
      = .ok (user.map (fun l =>
          ⟨l, (drop_duplicates master).find? (fun r => decide (r.fpc = l.fpc))⟩)) := by
  unfold process_geocoding_merge merge_m1
  rw [if_pos (drop_duplicates_keys_nodup master)]

theorem Geocoding.matched_eq_latitude_aux (master : List MRow)
    (hm : ∀ mr ∈ master, mr.address.isna = false ∧ mr.lat.isna = false)
    (l : List URow) :
    matched_records (l.map (fun u =>
      ⟨u, (drop_duplicates master).find? (fun r => decide (r.fpc = u.fpc))⟩))
    = latitude_matched (l.map (fun u =>
      ⟨u, (drop_duplicates master).find? (fun r => decide (r.fpc = u.fpc))⟩)) := by
  unfold matched_records latitude_matched
  rw [List.filter_congr]
  intro g hg
  rcases List.mem_map.mp hg with ⟨u, _, hgu⟩
  cases hf : (drop_duplicates master).find? (fun r => decide (r.fpc = u.fpc)) with
  | none =>
    rw [← hgu, hf]
    simp [addressCell, latitudeCell, Value.isna]
  | some mr =>
    have hmem : mr ∈ master :=
      drop_duplicates_mem (List.mem_of_find?_eq_some hf)
    rcases hm mr hmem with ⟨ha, hl⟩
    rw [← hgu, hf]
    simp [addressCell, latitudeCell, ha, hl]

theorem Geocoding.reason_count_sum :
    ∀ (l : List GRow),
      (l.filter (fun g => g.user.reason = some .NOT_NUMERIC)).length
      + (l.filter (fun g => g.user.reason = some .NO_INPUT_PROVIDED)).length
      + (l.filter (fun g => g.user.reason = some .NOT_INTEGER)).length
      + (l.filter (fun g => g.user.reason = some .OUT_OF_RANGE)).length
      + (l.filter (fun g => g.user.reason = some .NOT_IN_MASTER_DATASET)).length
      = (l.filter (fun g => ¬ g.user.reason = none)).length := by
  intro l
  induction l with
  | nil => rfl
  | cons g l ih =>
    cases hr : g.user.reason with
    | none =>
      simp [List.filter_cons, hr] at ih ⊢
      omega
    | some reas =>
      cases reas
      all_goals simp [List.filter_cons, hr] at ih ⊢
      all_goals omega

/-! ### Monotonicity of invalidation -/

theorem Qrow_integer {reas : Reason} {r : VRow} (h : Qrow reas r) :
    checkIsIntegerRow r = r :=
  checkIsIntegerRow_na h.2.2

theorem Qrow_range {reas : Reason} {lo hi : ℚ} {r : VRow} (h : Qrow reas r) :
    checkPostcodeRangeRowA lo hi r = r :=
  checkPostcodeRangeRowA_na lo hi h.2.2

theorem Qrow_format {reas : Reason} {r : VRow} (h : Qrow reas r) :
    formatValidRow r = .ok r :=
  formatValidRow_na h.2.2

theorem Qrow_master {reas : Reason} {m : List String} {r : VRow} (h : Qrow reas r) :
    checkInMasterRow m r = r :=
  checkInMasterRow_flag_false h.1

theorem ValidationA.rowUpTo_mono {k m : ℕ} {lo hi : ℚ}
    {master : Option (List String)} {v : Value} {r r' : VRow} {reas : Reason}
    (hk : 1 ≤ k) (hkm : k < m) (hm : m ≤ 5)
    (h : rowUpTo k lo hi master v = .ok r)
    (hflag : r.flag = false) (hreas : r.reason = some reas)
    (h' : rowUpTo m lo hi master v = .ok r') :
    r'.flag = false ∧ r'.reason = some reas := by
  have hk4 : k ≤ 4 := by omega
  have hQ : Qrow reas r := by
    have hinv := rowUpTo_rowInvariant hk (by omega) h
    refine ⟨hflag, hreas, ?_⟩
    by_contra hne
    rcases hinv with ⟨_, _, h3, h4⟩
    by_cases hk4 : k ≤ 4
    · exact absurd (h3 hk4 hne) (by simp [hflag])
    · have : k = 5 := by omega
      omega
  suffices hsuf : rowUpTo m lo hi master v = .ok r by
    rw [hsuf] at h'
    cases h'
    exact ⟨hflag, hreas⟩
  interval_cases k
  · rw [rowUpTo_one] at h
    cases h
    interval_cases m
    · rw [rowUpTo_two, Qrow_integer hQ]
    · rw [rowUpTo_three, Qrow_integer hQ, Qrow_range hQ]
    · rw [rowUpTo_four, Qrow_integer hQ, Qrow_range hQ, Qrow_format hQ]
    · cases master with
      | none =>
        rw [rowUpTo_five_none, Qrow_integer hQ, Qrow_range hQ, Qrow_format hQ]
      | some mm =>
        rw [rowUpTo_five_some, Qrow_integer hQ, Qrow_range hQ, Qrow_format hQ]
        simp [okMap, Qrow_master hQ]
  · rw [rowUpTo_two] at h
    cases h
    interval_cases m
    · rw [rowUpTo_three, Qrow_range hQ]
    · rw [rowUpTo_four, Qrow_range hQ, Qrow_format hQ]
    · cases master with
      | none => rw [rowUpTo_five_none, Qrow_range hQ, Qrow_format hQ]
      | some mm =>
        rw [rowUpTo_five_some, Qrow_range hQ, Qrow_format hQ]
        simp [okMap, Qrow_master hQ]
  · rw [rowUpTo_three] at h
    cases h
    interval_cases m
    · rw [rowUpTo_four, Qrow_format hQ]
    · cases master with
      | none => rw [rowUpTo_five_none, Qrow_format hQ]
      | some mm =>
        rw [rowUpTo_five_some, Qrow_format hQ]
        simp [okMap, Qrow_master hQ]
  · rw [rowUpTo_four] at h
    interval_cases m
    cases master with
    | none => rw [rowUpTo_five_none, h]
    | some mm =>
      rw [rowUpTo_five_some, h]
      simp [okMap, Qrow_master hQ]

theorem ValidationB.fuse2 (vals : List Value) (lo hi : ℚ) :
    check_postcode_range lo hi (ValidationA.parse_numeric_postcodes vals)
      = vals.map (fun v => checkPostcodeRangeRowB lo hi (parseNumericRow v)) := by
  simp [ValidationA.parse_numeric_postcodes, check_postcode_range,
    List.map_map, Function.comp]

theorem ValidationB.format2 (vals : List Value) (lo hi : ℚ) :
    ValidationA.format_valid_postcodes (check_postcode_range lo hi
        (ValidationA.parse_numeric_postcodes vals))
      = mapE (fun v => formatValidRow
          (checkPostcodeRangeRowB lo hi (parseNumericRow v))) vals := by
  rw [fuse2]
  exact mapE_comp_map _ _ vals

theorem ValidationB.validate_eq (vals : List Value) (lo hi : ℚ)
    (master : Option (List String)) :
    validate_and_format_postcodes vals lo hi master = mapE (rowB lo hi master) vals := by
  cases master with
  | none =>
    rw [mapE_congr
      (g := fun v => formatValidRow (checkPostcodeRangeRowB lo hi (parseNumericRow v)))
      (fun v => by
        simp only [rowB]
        cases formatValidRow (checkPostcodeRangeRowB lo hi (parseNumericRow v)) with
        | error e => rfl
        | ok r3 => rfl) vals]
    rw [← format2]
    simp only [validate_and_format_postcodes]
    cases ValidationA.format_valid_postcodes (check_postcode_range lo hi
        (ValidationA.parse_numeric_postcodes vals)) with
    | error e => rfl
    | ok r3 => rfl
  | some m =>
    rw [mapE_congr
      (g := fun v => okMap (checkInMasterRow m) (formatValidRow
        (checkPostcodeRangeRowB lo hi (parseNumericRow v))))
      (fun v => by
        simp only [rowB]
        cases formatValidRow (checkPostcodeRangeRowB lo hi (parseNumericRow v)) with
        | error e => rfl
        | ok r3 => rfl) vals]
    rw [← mapE_postMap]
    rw [← format2]
    simp only [validate_and_format_postcodes]
    cases ValidationA.format_valid_postcodes (check_postcode_range lo hi
        (ValidationA.parse_numeric_postcodes vals)) with
    | error e => rfl
    | ok r3 => rfl

theorem ValidationA.validate_upTo_eq (k : ℕ) (vals : List Value) (lo hi : ℚ)
    (master : Option (List String)) :
    validate_upTo k vals lo hi master = mapE (rowUpTo k lo hi master) vals := by
  by_cases h1 : k ≤ 1
  · rw [mapE_congr (g := fun v => Except.ok (parseNumericRow v))
      (fun v => by simp [rowUpTo, h1]) vals]
    rw [mapE_pure]
    simp [validate_upTo, h1, parse_numeric_postcodes]
  · by_cases h2 : k ≤ 2
    · rw [mapE_congr (g := fun v => Except.ok (checkIsIntegerRow (parseNumericRow v)))
        (fun v => by simp [rowUpTo, h1, h2]) vals]
      rw [mapE_pure]
      simp [validate_upTo, h1, h2, parse_numeric_postcodes, check_is_integer,
        List.map_map, Function.comp]
    · by_cases h3 : k ≤ 3
      · rw [mapE_congr
          (g := fun v => Except.ok (checkPostcodeRangeRowA lo hi
            (checkIsIntegerRow (parseNumericRow v))))
          (fun v => by simp [rowUpTo, h1, h2, h3]) vals]
        rw [mapE_pure]
        simp [validate_upTo, h1, h2, h3, parse_numeric_postcodes, check_is_integer,
          check_postcode_range, List.map_map, Function.comp]
      · by_cases h4 : k ≤ 4
        · rw [mapE_congr
            (g := fun v => formatValidRow (checkPostcodeRangeRowA lo hi
              (checkIsIntegerRow (parseNumericRow v))))
            (fun v => by
              simp only [rowUpTo, if_neg h1, if_neg h2, if_neg h3]
              cases formatValidRow
                  (checkPostcodeRangeRowA lo hi (checkIsIntegerRow (parseNumericRow v))) with
              | error e => rfl
              | ok r4 => simp [h4]) vals]
          rw [← format3]
          simp only [validate_upTo, if_neg h1, if_neg h2, if_neg h3]
          cases format_valid_postcodes (check_postcode_range lo hi
              (check_is_integer (parse_numeric_postcodes vals))) with
          | error e => rfl
          | ok r4 => simp [h4]
        · cases master with
          | none =>
            rw [mapE_congr
              (g := fun v => formatValidRow (checkPostcodeRangeRowA lo hi
                (checkIsIntegerRow (parseNumericRow v))))
              (fun v => by
                simp only [rowUpTo, if_neg h1, if_neg h2, if_neg h3]
                cases formatValidRow
                    (checkPostcodeRangeRowA lo hi (checkIsIntegerRow (parseNumericRow v))) with
                | error e => rfl
                | ok r4 => simp [h4]) vals]
            rw [← format3]
            simp only [validate_upTo, if_neg h1, if_neg h2, if_neg h3]
            cases format_valid_postcodes (check_postcode_range lo hi
                (check_is_integer (parse_numeric_postcodes vals))) with
            | error e => rfl
            | ok r4 => simp [h4]
          | some m =>
            rw [mapE_congr
              (g := fun v => okMap (checkInMasterRow m) (formatValidRow
                (checkPostcodeRangeRowA lo hi (checkIsIntegerRow (parseNumericRow v)))))
              (fun v => by
                simp only [rowUpTo, if_neg h1, if_neg h2, if_neg h3]
                cases formatValidRow
                    (checkPostcodeRangeRowA lo hi (checkIsIntegerRow (parseNumericRow v))) with
                | error e => rfl
                | ok r4 => simp [h4, okMap]) vals]
            rw [← mapE_postMap]
            rw [← format3]
            simp only [validate_upTo, if_neg h1, if_neg h2, if_neg h3]
            cases format_valid_postcodes (check_postcode_range lo hi
                (check_is_integer (parse_numeric_postcodes vals))) with
            | error e => rfl
            | ok r4 => simp [h4, okMap, check_in_master_dataset]

end SPG

namespace SPG

/-! ### Claims -/

/-- C1, counterexample: after the master-dataset check, the row for input
"123456" (well-formed, in range, absent from the master list) has a false
flag and a recorded reason while `formatted_postcode` is still the non-null
string "123456" — the claimed three-way equivalence fails at that stage. -/
theorem spec_C1_counterexample :
    ValidationA.validate_and_format_postcodes [Value.str "123456"] 18906 918146
        (some ["018906", "012345"])
      = .ok [{ input := Value.str "123456", formatted := Value.str "123456",
               flag := false, reason := some Reason.NOT_IN_MASTER_DATASET }]
    ∧ ¬ (Value.str "123456" = Value.na) := by
  constructor
  · decide
  · decide

/-- C1 (amended): after every stage of the variant-A validation pipeline,
each row satisfies: the flag holds iff the reason is absent; a flagged row
has a non-null formatted value; through stage 4 a non-null formatted value
conversely implies the flag; and after the master-dataset stage the only
rows with a false flag and a non-null formatted value are exactly the
`NOT_IN_MASTER_DATASET` rejections (the value is preserved there). -/
theorem spec_C1_field_invariants :
    ∀ (k : ℕ) (vals : List Value) (lo hi : ℚ) (master : Option (List String))
      (rows : List VRow), 1 ≤ k → k ≤ 5 →
      ValidationA.validate_upTo k vals lo hi master = .ok rows →
      ∀ i (h : i < rows.length), rowInvariantAt k (rows.get ⟨i, h⟩) := by
  intro k vals lo hi master rows h1 h5 heq i h
  rw [ValidationA.validate_upTo_eq] at heq
  have hlen := mapE_ok_length heq
  have hi' : i < vals.length := by omega
  have hrow := mapE_ok_get heq i hi' h
  exact ValidationA.rowUpTo_rowInvariant h1 h5 hrow

/-- C1 witness: the amended invariant evaluated after the full pipeline on
the in-master input "018906". -/
theorem spec_C1_field_invariants_witness :
    rowInvariantAt 5
      ({ input := Value.str "018906", formatted := Value.str "018906",
         flag := true, reason := none } : VRow) :=
  spec_C1_field_invariants 5 [Value.str "018906"] 18906 918146 (some ["018906"])
    [{ input := Value.str "018906", formatted := Value.str "018906",
       flag := true, reason := none }]
    (by norm_num) (by norm_num) (by decide) 0 (by decide)

/-- C2, counterexample: in the `pipelines/data_validation/nodes.py` variant
(which has no integer-check stage) the entry point raises on the fractional
input "123456.81" instead of marking the row `NOT_INTEGER`, so the claim
does not hold for every variant of the validation module. -/
theorem spec_C2_counterexample :
    ValidationB.validate_and_format_postcodes [Value.str "123456.81"]
      18906 918146 none = .error () := by
  decide

/-- C2 (amended): a cell parsing as a numeric with non-zero fractional part
is marked `NOT_INTEGER` with a cleared working value by the
`singapore_postcode_validation.py` variant, while the
`pipelines/data_validation/nodes.py` variant, which has no integer check,
raises during formatting on any such cell. -/
theorem spec_C2_not_integer :
    ∀ (vals : List Value) (lo hi : ℚ) (master : Option (List String))
      (i : ℕ) (h : i < vals.length) (q : ℚ),
      to_numeric (vals.get ⟨i, h⟩) = some q → ¬ q.den = 1 →
      ((∀ rows, ValidationA.validate_and_format_postcodes vals lo hi master = .ok rows →
          ∀ (h' : i < rows.length),
            (rows.get ⟨i, h'⟩).reason = some .NOT_INTEGER
            ∧ (rows.get ⟨i, h'⟩).flag = false
            ∧ (rows.get ⟨i, h'⟩).formatted = .na)
        ∧ ValidationB.validate_and_format_postcodes vals lo hi master = .error ()) := by
  intro vals lo hi master i h q hq hden
  constructor
  · intro rows e h'
    unfold ValidationA.validate_and_format_postcodes at e
    rw [ValidationA.validate_upTo_eq] at e
    have hlen := mapE_ok_length e
    have hi' : i < vals.length := by omega
    have hrow := mapE_ok_get e i hi' h'
    rw [ValidationA.rowA_frac hq hden] at hrow
    injection hrow with hrow
    rw [← hrow]
    exact ⟨rfl, rfl, rfl⟩
  · rw [ValidationB.validate_eq]
    exact mapE_error_of_mem (List.get_mem vals i h) (rowB_error_of_frac hq hden)

/-- C2 witness: the amended claim evaluated at the single-cell table
["123456.81"] with the default range and no master. -/
theorem spec_C2_not_integer_witness :
    ValidationB.validate_and_format_postcodes [Value.str "123456.81"]
      18906 918146 none = .error () :=
  (spec_C2_not_integer [Value.str "123456.81"] 18906 918146 none 0 (by decide)
    (mkRat 12345681 100) (by decide) (by decide)).2

/-- C3: a null input cell always receives reason `NO_INPUT_PROVIDED` (never
`NOT_NUMERIC`) with a false flag, in both validation-module variants: the
null check is applied as a final override after the numeric-parse check. -/
theorem spec_C3_null_input :
    ∀ (vals : List Value) (lo hi : ℚ) (master : Option (List String))
      (i : ℕ) (h : i < vals.length),
      vals.get ⟨i, h⟩ = .na →
      ((∀ rows, ValidationA.validate_and_format_postcodes vals lo hi master = .ok rows →
          ∀ (h' : i < rows.length),
            (rows.get ⟨i, h'⟩).reason = some .NO_INPUT_PROVIDED
            ∧ (rows.get ⟨i, h'⟩).flag = false)
        ∧ (∀ rows, ValidationB.validate_and_format_postcodes vals lo hi master = .ok rows →
          ∀ (h' : i < rows.length),
            (rows.get ⟨i, h'⟩).reason = some .NO_INPUT_PROVIDED
            ∧ (rows.get ⟨i, h'⟩).flag = false)) := by
  intro vals lo hi master i h hna
  constructor
  · intro rows e h'
    unfold ValidationA.validate_and_format_postcodes at e
    rw [ValidationA.validate_upTo_eq] at e
    have hlen := mapE_ok_length e
    have hi' : i < vals.length := by omega
    have hrow := mapE_ok_get e i hi' h'
    rw [show vals.get ⟨i, hi'⟩ = Value.na from hna] at hrow
    rw [ValidationA.rowA_na] at hrow
    injection hrow with hrow
    rw [← hrow]
    exact ⟨rfl, rfl⟩
  · intro rows e h'
    rw [ValidationB.validate_eq] at e
    have hlen := mapE_ok_length e
    have hi' : i < vals.length := by omega
    have hrow := mapE_ok_get e i hi' h'
    rw [show vals.get ⟨i, hi'⟩ = Value.na from hna] at hrow
    rw [rowB_na] at hrow
    injection hrow with hrow
    rw [← hrow]
    exact ⟨rfl, rfl⟩

/-- C3 witness: both variants evaluated on the one-row null table. -/
theorem spec_C3_null_input_witness :
    (({ input := Value.na, formatted := Value.na, flag := false,
        reason := some Reason.NO_INPUT_PROVIDED } : VRow).reason
        = some .NO_INPUT_PROVIDED
      ∧ ({ input := Value.na, formatted := Value.na, flag := false,
           reason := some Reason.NO_INPUT_PROVIDED } : VRow).flag = false) :=
  (spec_C3_null_input [Value.na] 18906 918146 none 0 (by decide) (by decide)).1
    [⟨Value.na, Value.na, false, some .NO_INPUT_PROVIDED⟩] (by decide) (by decide)

/-- C4: in the variant-A pipeline, once a row is invalid with some reason
after stage `k`, every later stage `m` keeps the same reason and the false
flag (stages only downgrade rows). -/
theorem spec_C4_first_failure_wins :
    ∀ (vals : List Value) (lo hi : ℚ) (master : Option (List String))
      (k m : ℕ) (rk rm : List VRow), 1 ≤ k → k < m → m ≤ 5 →
      ValidationA.validate_upTo k vals lo hi master = .ok rk →
      ValidationA.validate_upTo m vals lo hi master = .ok rm →
      ∀ i (hik : i < rk.length) (him : i < rm.length) (reas : Reason),
        (rk.get ⟨i, hik⟩).flag = false → (rk.get ⟨i, hik⟩).reason = some reas →
        (rm.get ⟨i, him⟩).flag = false ∧ (rm.get ⟨i, him⟩).reason = some reas := by
  intro vals lo hi master k m rk rm h1 hkm hm5 ek em i hik him reas hflag hreas
  rw [ValidationA.validate_upTo_eq] at ek em
  have hlenk := mapE_ok_length ek
  have hlenm := mapE_ok_length em
  have hik' : i < vals.length := by omega
  have hrk := mapE_ok_get ek i hik' hik
  have hrm := mapE_ok_get em i hik' him
  exact ValidationA.rowUpTo_mono h1 hkm hm5 hrk hflag hreas hrm

/-- C4 witness: the NOT_NUMERIC failure of stage 1 survives to stage 5 on
the input "abc". -/
theorem spec_C4_first_failure_wins_witness :
    (({ input := Value.str "abc", formatted := Value.na, flag := false,
        reason := some Reason.NOT_NUMERIC } : VRow).flag = false
      ∧ ({ input := Value.str "abc", formatted := Value.na, flag := false,
           reason := some Reason.NOT_NUMERIC } : VRow).reason
          = some Reason.NOT_NUMERIC) :=
  spec_C4_first_failure_wins [Value.str "abc"] 18906 918146 none 1 5
    [⟨Value.str "abc", Value.na, false, some .NOT_NUMERIC⟩]
    [⟨Value.str "abc", Value.na, false, some .NOT_NUMERIC⟩]
    (by norm_num) (by norm_num) (by norm_num) (by decide) (by decide)
    0 (by decide) (by decide) Reason.NOT_NUMERIC rfl rfl

end SPG

namespace SPG

/-- C5, counterexample: with the configured inclusive range [0, 9999999] the
input "1234567" passes validation (flag true) but the formatted value is the
7-character string "1234567" — `zfill(6)` only pads, it never truncates, so
the output is not exactly 6 digits for every configured range. -/
theorem spec_C5_counterexample :
    ValidationA.validate_upTo 4 [Value.str "1234567"] 0 9999999 none
      = .ok [{ input := Value.str "1234567", formatted := Value.str "1234567",
               flag := true, reason := none }]
    ∧ ¬ ("1234567".length = 6) := by
  constructor
  · decide
  · decide

/-- C5 (amended): whenever the configured inclusive range lies within
[0, 999999] (as the default [18906, 918146] does), `format_valid_postcodes`
produces a string of exactly 6 decimal digits for every flagged row and
exactly null for every unflagged row; for wider ranges the value is the
unpadded decimal rendering, which can exceed 6 characters. -/
theorem spec_C5_format_six_digits :
    ∀ (vals : List Value) (lo hi : ℚ) (master : Option (List String))
      (rows : List VRow), 0 ≤ lo → hi ≤ 999999 →
      ValidationA.validate_upTo 4 vals lo hi master = .ok rows →
      ∀ i (h : i < rows.length),
        ((rows.get ⟨i, h⟩).flag = true →
          ∃ s : String, (rows.get ⟨i, h⟩).formatted = .str s ∧ s.length = 6
            ∧ ∀ c ∈ s.data, c.isDigit = true)
        ∧ ((rows.get ⟨i, h⟩).flag = false → (rows.get ⟨i, h⟩).formatted = .na) := by
  intro vals lo hi master rows hlo hhi heq i h
  rw [ValidationA.validate_upTo_eq] at heq
  have hlen := mapE_ok_length heq
  have hi' : i < vals.length := by omega
  have hrow := mapE_ok_get heq i hi' h
  constructor
  · intro hflag
    exact ValidationA.rowUpTo4_flag_true hlo hhi hrow hflag
  · intro hflag
    have hinv := ValidationA.rowUpTo_rowInvariant (by norm_num) (by norm_num) hrow
    rcases hinv with ⟨_, _, h3, _⟩
    by_contra hne
    have := h3 (by norm_num) hne
    rw [hflag] at this
    cases this

/-- C5 witness: the default range and the in-range input "018906". -/
theorem spec_C5_format_six_digits_witness :
    ∃ s : String,
      ({ input := Value.str "018906", formatted := Value.str "018906",
         flag := true, reason := none } : VRow).formatted = .str s
      ∧ s.length = 6 ∧ ∀ c ∈ s.data, c.isDigit = true :=
  (spec_C5_format_six_digits [Value.str "018906"] 18906 918146 none
    [{ input := Value.str "018906", formatted := Value.str "018906",
       flag := true, reason := none }]
    (by norm_num) (by norm_num) (by decide) 0 (by decide)).1 rfl

end SPG

namespace SPG

/-- C6: the ranked identification results of both identifier variants are
sorted with rates descending (NaN rates last) and, on equal rates, no
INDIRECT candidate ever precedes a DIRECT one. -/
theorem spec_C6_ranked_order :
    ∀ (entropy : ℕ) (ext : Value → Value) (cfg : AutoIdent1.AutoIdentifyConfig)
      (t : Table) (lo hi : ℚ) (master : Option (List String))
      (df2 : Table) (cols : List String) (pattern : String),
      (∀ res, AutoIdent1.calculate_all_match_success entropy ext cfg t lo hi master
          = .ok res → res.Pairwise rankedAfter)
      ∧ (∀ res, AutoIdent2.test_convert ext df2 cols pattern lo hi master
          = .ok res → res.Pairwise rankedAfter) := by
  intro entropy ext cfg t lo hi master df2 cols pattern
  constructor
  · intro res h
    simp only [AutoIdent1.calculate_all_match_success] at h
    repeat' split at h
    all_goals first
      | exact Except.noConfusion h
      | (injection h with h; rw [← h]; exact sortCandidates_pairwise _)
  · intro res h
    simp only [AutoIdent2.test_convert] at h
    repeat' split at h
    all_goals first
      | exact Except.noConfusion h
      | (injection h with h; rw [← h]; exact sortCandidates_pairwise _)

/-- C6 witness: both variants evaluated on a one-column table of valid
postcodes. -/
theorem spec_C6_ranked_order_witness :
    ([{ field := "pc", rate := some 1, pattern := none, method := MType.DIRECT },
      { field := "pc", rate := some 0, pattern := some "P",
        method := MType.INDIRECT }] : List Candidate).Pairwise rankedAfter
    ∧ ([{ field := "pc", rate := some 1, pattern := none, method := MType.DIRECT },
        { field := "pc", rate := some 0, pattern := some "P",
          method := MType.INDIRECT }] : List Candidate).Pairwise rankedAfter :=
  ⟨(spec_C6_ranked_order 0 trivialExtract ⟨none, none, 1, some "P"⟩
      [("pc", [Value.str "018906", Value.str "018906"])] 18906 918146
      (some ["018906"]) [("pc", [Value.str "018906"])] ["pc"] "P").1
      [{ field := "pc", rate := some 1, pattern := none, method := MType.DIRECT },
       { field := "pc", rate := some 0, pattern := some "P", method := MType.INDIRECT }]
      (by decide),
   (spec_C6_ranked_order 0 trivialExtract ⟨none, none, 1, some "P"⟩
      [("pc", [Value.str "018906", Value.str "018906"])] 18906 918146
      (some ["018906"]) [("pc", [Value.str "018906"])] ["pc"] "P").2
      [{ field := "pc", rate := some 1, pattern := none, method := MType.DIRECT },
       { field := "pc", rate := some 0, pattern := some "P", method := MType.INDIRECT }]
      (by decide)⟩

/-- C7, counterexample: in the class-based variant, with the top candidate's
success rate exactly equal to the configured threshold (rate 1, threshold
1 — not below it), `auto_convert_postcodes` still selects no column and
returns the caller's table unchanged, because `check_threshold` requires a
strictly greater rate — refuting the "and only then" part of the claim. -/
theorem spec_C7_counterexample :
    AutoIdent2.auto_convert_postcodes 0 trivialExtract
        [("pc", [Value.str "018906"])] 18906 918146 (some ["018906"])
        ⟨"P", none, none, none, 1⟩
      = .ok ([("pc", [Value.str "018906"])], false,
          [{ field := "pc", rate := some 1, pattern := none, method := MType.DIRECT },
           { field := "pc", rate := some 0, pattern := some "P",
             method := MType.INDIRECT }])
    ∧ ¬ ((1 : ℚ) < 1) := by
  constructor
  · decide
  · decide

/-- C7 (amended): the functional variant selects no column exactly when the
top-ranked rate is strictly below the threshold, and then returns the
caller's table unchanged together with the top candidate (not the full
ranked list); the class-based variant selects no column exactly when the
top-ranked rate is not strictly greater than the threshold (so also on
exact ties and on the NaN rates of an empty table), and then returns the
caller's table unchanged together with the full ranked results; neither
path raises. -/
theorem spec_C7_below_threshold :
    (∀ (ms : List Candidate) (th : ℚ) (best : Candidate) (passed : Bool),
        AutoIdent1.find_best_postcode_column ms th = .ok (best, passed) →
        (passed = false ↔ AutoIdent1.rateBelow best.rate th = true))
    ∧ (∀ (ext : Value → Value) (df : Table) (best : Candidate) (lo hi : ℚ)
        (master : Option (List String)),
        AutoIdent1.auto_convert_postcode_column ext df best false lo hi master
          = .ok (df, best))
    ∧ (∀ (entropy : ℕ) (ext : Value → Value) (cfg : AutoIdent1.AutoIdentifyConfig)
        (df : Table) (lo hi : ℚ) (master : Option (List String))
        (best : Candidate) (rest : List Candidate),
        AutoIdent1.calculate_all_match_success entropy ext cfg df lo hi master
          = .ok (best :: rest) →
        AutoIdent1.rateBelow best.rate cfg.success_threshold = true →
        AutoIdent1.auto_identify_extract_postcodes entropy ext cfg df lo hi master
          = .ok (df, best))
    ∧ (∀ (entropy : ℕ) (ext : Value → Value) (df : Table) (lo hi : ℚ)
        (master : Option (List String)) (cfg : AutoIdent2.IdentifyConfig2)
        (tbl : Table) (sel : Bool) (results : List Candidate),
        AutoIdent2.auto_convert_postcodes entropy ext df lo hi master cfg
          = .ok (tbl, sel, results) →
        ∃ top rest, sortCandidates results = top :: rest
          ∧ (sel = false ↔ AutoIdent2.rateAbove top.rate cfg.success_threshold = false)
          ∧ (sel = false → tbl = df)) := by
  refine ⟨?_, ?_, ?_, ?_⟩
  · intro ms th best passed h
    cases ms with
    | nil => exact Except.noConfusion h
    | cons b rest =>
      simp only [AutoIdent1.find_best_postcode_column] at h
      injection h with h
      injection h with h1 h2
      subst h1
      subst h2
      cases hrb : AutoIdent1.rateBelow b.rate th <;> simp [hrb]
  · intro ext df best lo hi master
    simp [AutoIdent1.auto_convert_postcode_column]
  · intro entropy ext cfg df lo hi master best rest hcalc hrb
    unfold AutoIdent1.auto_identify_extract_postcodes
    rw [hcalc]
    simp [AutoIdent1.find_best_postcode_column, hrb,
      AutoIdent1.auto_convert_postcode_column]
  · intro entropy ext df lo hi master cfg tbl sel results h
    cases htc : AutoIdent2.test_convert ext
        (AutoIdent2.set_sample_candidate_df entropy cfg df)
        (columnNames (AutoIdent2.set_sample_candidate_df entropy cfg df))
        cfg.regex_pattern lo hi master with
    | error e =>
      rw [show AutoIdent2.auto_convert_postcodes entropy ext df lo hi master cfg
          = .error e by simp only [AutoIdent2.auto_convert_postcodes, htc]] at h
      exact Except.noConfusion h
    | ok results' =>
      cases hs : sortCandidates results' with
      | nil =>
        rw [show AutoIdent2.auto_convert_postcodes entropy ext df lo hi master cfg
            = .error () by simp only [AutoIdent2.auto_convert_postcodes, htc, hs]] at h
        exact Except.noConfusion h
      | cons top rest =>
        by_cases hc1 : (getCol df top.field).isNone = true
        · rw [show AutoIdent2.auto_convert_postcodes entropy ext df lo hi master cfg
              = .error () by
            simp only [AutoIdent2.auto_convert_postcodes, htc, hs, if_pos hc1]] at h
          exact Except.noConfusion h
        · by_cases hc2 : top.method = .INDIRECT ∧ top.pattern = none
          · rw [show AutoIdent2.auto_convert_postcodes entropy ext df lo hi master cfg
                = .error () by
              simp only [AutoIdent2.auto_convert_postcodes, htc, hs, if_neg hc1,
                if_pos hc2]] at h
            exact Except.noConfusion h
          · by_cases hc3 : AutoIdent2.rateAbove top.rate cfg.success_threshold = true
            · cases hcc : AutoIdent2.convert_column ext df top lo hi master with
              | error e =>
                rw [show AutoIdent2.auto_convert_postcodes entropy ext df lo hi master cfg
                    = .error e by
                  simp only [AutoIdent2.auto_convert_postcodes, htc, hs, if_neg hc1,
                    if_neg hc2, if_pos hc3, hcc]] at h
                exact Except.noConfusion h
              | ok conv =>
                rw [show AutoIdent2.auto_convert_postcodes entropy ext df lo hi master cfg
                    = .ok (conv, true, results') by
                  simp only [AutoIdent2.auto_convert_postcodes, htc, hs, if_neg hc1,
                    if_neg hc2, if_pos hc3, hcc]] at h
                injection h with h
                injection h with h1 h
                injection h with h2 h3
                subst h1
                subst h2
                subst h3
                exact ⟨top, rest, hs, by simp [hc3], by simp⟩
            · have hc3' : AutoIdent2.rateAbove top.rate cfg.success_threshold = false := by
                cases hval : AutoIdent2.rateAbove top.rate cfg.success_threshold
                · rfl
                · exact absurd hval hc3
              rw [show AutoIdent2.auto_convert_postcodes entropy ext df lo hi master cfg
                  = .ok (df, false, results') by
                simp only [AutoIdent2.auto_convert_postcodes, htc, hs, if_neg hc1,
                  if_neg hc2, if_neg hc3]] at h
              injection h with h
              injection h with h1 h
              injection h with h2 h3
              subst h1
              subst h2
              subst h3
              exact ⟨top, rest, hs, by simp [hc3'], fun _ => rfl⟩

/-- C7 witness: on a one-column table whose best rate 0 is below the
threshold 1, the functional variant returns the table unchanged with the
top candidate. -/
theorem spec_C7_below_threshold_witness :
    AutoIdent1.auto_identify_extract_postcodes 0 trivialExtract
        ⟨none, none, 1, some "P"⟩ [("pc", [Value.str "x"])] 18906 918146 none
      = .ok ([("pc", [Value.str "x"])],
          { field := "pc", rate := some 0, pattern := none, method := MType.DIRECT }) :=
  spec_C7_below_threshold.2.2.1 0 trivialExtract ⟨none, none, 1, some "P"⟩
    [("pc", [Value.str "x"])] 18906 918146 none
    { field := "pc", rate := some 0, pattern := none, method := MType.DIRECT }
    [{ field := "pc", rate := some 0, pattern := some "P", method := MType.INDIRECT }]
    (by decide) (by decide)

/-- C8, counterexample: in the class-based variant a configuration without a
seed draws its sample from the ambient global RNG state (modelled by the
entropy argument): two calls on the same table and configuration but
different ambient states draw different samples and produce different
ranked results. -/
theorem spec_C8_counterexample :
    AutoIdent2.set_sample_candidate_df 0 ⟨"P", some 1, none, none, 2⟩
        [("A", [Value.num 18906, Value.str "x"])]
      ≠ AutoIdent2.set_sample_candidate_df 1 ⟨"P", some 1, none, none, 2⟩
        [("A", [Value.num 18906, Value.str "x"])]
    ∧ AutoIdent2.auto_convert_postcodes 0 trivialExtract
        [("A", [Value.num 18906, Value.str "x"])] 18906 918146 none
        ⟨"P", some 1, none, none, 2⟩
      ≠ AutoIdent2.auto_convert_postcodes 1 trivialExtract
        [("A", [Value.num 18906, Value.str "x"])] 18906 918146 none
        ⟨"P", some 1, none, none, 2⟩ := by
  constructor
  · decide
  · decide

/-- C8 (amended): the functional identifier samples with the fixed seed 42
and is therefore independent of the ambient RNG state (identical ranked
results across repeated calls), the drawn sample always has
`min(sample_size, row_count)` rows, and the class-based identifier is
deterministic exactly when its configuration supplies a seed; without one
the draw depends on ambient randomness. -/
theorem spec_C8_determinism :
    (∀ (e1 e2 : ℕ) (ext : Value → Value) (cfg : AutoIdent1.AutoIdentifyConfig)
        (t : Table) (lo hi : ℚ) (master : Option (List String)),
        AutoIdent1.calculate_all_match_success e1 ext cfg t lo hi master
          = AutoIdent1.calculate_all_match_success e2 ext cfg t lo hi master)
    ∧ (∀ (s n : ℕ) (t : Table), nrows (sampleTable s n t) = min n (nrows t))
    ∧ (∀ (e1 e2 : ℕ) (ext : Value → Value) (df : Table) (lo hi : ℚ)
        (master : Option (List String)) (cfg : AutoIdent2.IdentifyConfig2) (s : ℕ),
        cfg.seed = some s →
        AutoIdent2.auto_convert_postcodes e1 ext df lo hi master cfg
          = AutoIdent2.auto_convert_postcodes e2 ext df lo hi master cfg) := by
  refine ⟨?_, ?_, ?_⟩
  · intro e1 e2 ext cfg t lo hi master
    rfl
  · intro s n t
    cases t with
    | nil => simp [sampleTable, nrows]
    | cons c ts => simp [sampleTable, nrows, permuteTake]
  · intro e1 e2 ext df lo hi master cfg s hseed
    have heq : AutoIdent2.set_sample_candidate_df e1 cfg df
        = AutoIdent2.set_sample_candidate_df e2 cfg df := by
      unfold AutoIdent2.set_sample_candidate_df drawSeed
      rw [hseed]
      simp
    unfold AutoIdent2.auto_convert_postcodes
    rw [heq]

/-- C8 witness: identical results for two ambient states on a seeded
configuration. -/
theorem spec_C8_determinism_witness :
    AutoIdent2.auto_convert_postcodes 0 trivialExtract
        [("A", [Value.num 18906, Value.str "x"])] 18906 918146 none
        ⟨"P", some 1, none, some 7, 2⟩
      = AutoIdent2.auto_convert_postcodes 1 trivialExtract
        [("A", [Value.num 18906, Value.str "x"])] 18906 918146 none
        ⟨"P", some 1, none, some 7, 2⟩ :=
  spec_C8_determinism.2.2 0 1 trivialExtract
    [("A", [Value.num 18906, Value.str "x"])] 18906 918146 none
    ⟨"P", some 1, none, some 7, 2⟩ 7 rfl

end SPG

namespace SPG

/-- C9: the geocode left-join never raises and produces exactly one output
row per input row — the reference side is deduplicated on the postcode key
before the cardinality-validated merge, so duplicate reference keys never
multiply input rows. -/
theorem spec_C9_merge_cardinality :
    ∀ (user : List Geocoding.URow) (master : List Geocoding.MRow),
      (∃ out, Geocoding.process_geocoding_merge user master = .ok out)
      ∧ (∀ out, Geocoding.process_geocoding_merge user master = .ok out →
          out.length = user.length
          ∧ ∀ i (hu : i < user.length) (ho : i < out.length),
              (out.get ⟨i, ho⟩).user = user.get ⟨i, hu⟩) := by
  intro user master
  constructor
  · exact ⟨_, Geocoding.process_geocoding_merge_ok user master⟩
  · intro out h
    rw [Geocoding.process_geocoding_merge_ok] at h
    injection h with h
    subst h
    constructor
    · simp
    · intro i hu ho
      simp [List.get_eq_getElem, List.getElem_map]

/-- C9 witness: a reference with a duplicate "018906" key still yields
exactly one output row for the single input row, joined to the first
reference occurrence. -/
theorem spec_C9_merge_cardinality_witness :
    (∃ out, Geocoding.process_geocoding_merge
        [⟨Value.str "018906", none⟩]
        [⟨Value.str "018906", Value.str "A", Value.num 1⟩,
         ⟨Value.str "018906", Value.str "B", Value.num 2⟩] = .ok out)
    ∧ (([⟨⟨Value.str "018906", none⟩,
          some ⟨Value.str "018906", Value.str "A", Value.num 1⟩⟩] :
        List Geocoding.GRow).length = 1
      ∧ (([⟨⟨Value.str "018906", none⟩,
            some ⟨Value.str "018906", Value.str "A", Value.num 1⟩⟩] :
          List Geocoding.GRow).get ⟨0, by decide⟩).user = ⟨Value.str "018906", none⟩) :=
  ⟨(spec_C9_merge_cardinality [⟨Value.str "018906", none⟩]
      [⟨Value.str "018906", Value.str "A", Value.num 1⟩,
       ⟨Value.str "018906", Value.str "B", Value.num 2⟩]).1,
   ((spec_C9_merge_cardinality [⟨Value.str "018906", none⟩]
      [⟨Value.str "018906", Value.str "A", Value.num 1⟩,
       ⟨Value.str "018906", Value.str "B", Value.num 2⟩]).2
      [⟨⟨Value.str "018906", none⟩,
        some ⟨Value.str "018906", Value.str "A", Value.num 1⟩⟩] (by decide)).1,
   ((spec_C9_merge_cardinality [⟨Value.str "018906", none⟩]
      [⟨Value.str "018906", Value.str "A", Value.num 1⟩,
       ⟨Value.str "018906", Value.str "B", Value.num 2⟩]).2
      [⟨⟨Value.str "018906", none⟩,
        some ⟨Value.str "018906", Value.str "A", Value.num 1⟩⟩] (by decide)).2
      0 (by decide) (by decide)⟩

/-- C10, counterexample: `matched_records` counts rows with a non-null
ADDRESS, not latitude: with a master row whose ADDRESS is null but whose
LATITUDE is set, the matched count is 0 while exactly one row has a
non-null latitude. -/
theorem spec_C10_counterexample :
    Geocoding.process_geocoding_merge [⟨Value.str "018906", none⟩]
        [⟨Value.str "018906", Value.na, Value.num 1⟩]
      = .ok [⟨⟨Value.str "018906", none⟩,
             some ⟨Value.str "018906", Value.na, Value.num 1⟩⟩]
    ∧ Geocoding.matched_records
        [⟨⟨Value.str "018906", none⟩,
          some ⟨Value.str "018906", Value.na, Value.num 1⟩⟩] = 0
    ∧ Geocoding.latitude_matched
        [⟨⟨Value.str "018906", none⟩,
          some ⟨Value.str "018906", Value.na, Value.num 1⟩⟩] = 1 := by
  refine ⟨by decide, by decide, by decide⟩

/-- C10 (amended): the matched-record count is the number of merged rows
with a non-null ADDRESS cell; it coincides with the number of rows with a
non-null latitude whenever every master row carries both a non-null address
and a non-null latitude. Total rows equal the input rows, and the
failure-reason histogram, computed over exactly the rows with a null
latitude, sums to the number of such rows that carry a reason. -/
theorem spec_C10_statistics :
    ∀ (user : List Geocoding.URow) (master : List Geocoding.MRow)
      (out : List Geocoding.GRow),
      Geocoding.process_geocoding_merge user master = .ok out →
      out.length = user.length
      ∧ ((∀ mr ∈ master, mr.address.isna = false ∧ mr.lat.isna = false) →
          Geocoding.matched_records out = Geocoding.latitude_matched out)
      ∧ (Geocoding.failure_reason_count out .NOT_NUMERIC
          + Geocoding.failure_reason_count out .NO_INPUT_PROVIDED
          + Geocoding.failure_reason_count out .NOT_INTEGER
          + Geocoding.failure_reason_count out .OUT_OF_RANGE
          + Geocoding.failure_reason_count out .NOT_IN_MASTER_DATASET
        = ((Geocoding.non_merged out).filter
            (fun g => ¬ g.user.reason = none)).length) := by
  intro user master out h
  rw [Geocoding.process_geocoding_merge_ok] at h
  injection h with h
  subst h
  refine ⟨?_, ?_, ?_⟩
  · simp
  · intro hm
    exact Geocoding.matched_eq_latitude_aux master hm user
  · exact Geocoding.reason_count_sum (Geocoding.non_merged _)

/-- C10 witness: amended statistics evaluated on a two-row upload against a
fully populated master row. -/
theorem spec_C10_statistics_witness :
    Geocoding.matched_records
        [⟨⟨Value.str "018906", none⟩,
          some ⟨Value.str "018906", Value.str "A", Value.num 1⟩⟩,
         ⟨⟨Value.na, some Reason.NOT_NUMERIC⟩, none⟩]
      = Geocoding.latitude_matched
        [⟨⟨Value.str "018906", none⟩,
          some ⟨Value.str "018906", Value.str "A", Value.num 1⟩⟩,
         ⟨⟨Value.na, some Reason.NOT_NUMERIC⟩, none⟩] :=
  (spec_C10_statistics
    [⟨Value.str "018906", none⟩, ⟨Value.na, some Reason.NOT_NUMERIC⟩]
    [⟨Value.str "018906", Value.str "A", Value.num 1⟩]
    [⟨⟨Value.str "018906", none⟩,
      some ⟨Value.str "018906", Value.str "A", Value.num 1⟩⟩,
     ⟨⟨Value.na, some Reason.NOT_NUMERIC⟩, none⟩]
    (by decide)).2.1 (by decide)

end SPG
